import Mathlib

/-!
Verification of the D3Net gateway firmware core (esp32_d3net).

The definitions below are a shallow embedding of the C sources
`d3net_codec.c`, `modbus_rtu.c` and the gateway portion of `web_server.c`.
16-bit registers are modelled as `Nat` entries of a `List Nat` (the C type
confines them to `< 2 ^ 16`; every operation below reads and writes only the
low 16 bits, exactly as the C does on `uint16_t`).  Millisecond clocks are
modelled as `Nat` (the 64-bit counter is monotone and never wraps in the
device's lifetime).  Fallible transport calls are modelled as oracles
returning `Option` (read) or `Bool` (write success), and every transport
operation a gateway function emits is recorded in an `Op` log.
-/

namespace D3net

/-- Embedding of the C `esp_err_t` restricted to the codes the modelled
functions return. -/
inductive EspErr
  | ok
  | fail
  | invalidArg
  | timeout
  | invalidState
  | invalidCrc
  | invalidSize
deriving DecidableEq, Repr

/-- Register table kind, `d3net_reg_type_t` from d3net_codec.h. -/
inductive RegType
  | input
  | holding
deriving DecidableEq, Repr

/-! ## Bitfield codec (d3net_codec.c lines 6-75) -/

/-- `d3net_bit_get`: read the bit at `bit_pos`; out-of-range positions read
as `false`.  The `word_count` argument of the C function is the length of
the modelled list. -/
def d3net_bit_get (words : List Nat) (bit_pos : Nat) : Bool :=
  if bit_pos / 16 < words.length then
    Nat.testBit (words.getD (bit_pos / 16) 0) (bit_pos % 16)
  else
    false

/-- `d3net_bit_set`: write one bit, returning the updated words and dirty
flag.  A write that does not change the stored bit leaves the dirty flag
untouched; an actual change forces it to `true`.  `w &&& (65535 ^^^ mask)`
is the C expression `w & (uint16_t)(~mask)`. -/
def d3net_bit_set (words : List Nat) (bit_pos : Nat) (value dirty : Bool) :
    List Nat × Bool :=
  if bit_pos / 16 < words.length then
    if Nat.testBit (words.getD (bit_pos / 16) 0) (bit_pos % 16) = value then
      (words, dirty)
    else if value then
      (words.set (bit_pos / 16)
        (words.getD (bit_pos / 16) 0 ||| 1 <<< (bit_pos % 16)), true)
    else
      (words.set (bit_pos / 16)
        (words.getD (bit_pos / 16) 0 &&& (65535 ^^^ 1 <<< (bit_pos % 16))), true)
  else
    (words, dirty)

/-- `d3net_uint_get`: little-endian-by-bit unsigned field extraction,
`value |= 1 << i` for every set bit `start + i`, `i < length`. -/
def d3net_uint_get (words : List Nat) (start length : Nat) : Nat :=
  (List.range length).foldl
    (fun value i =>
      if d3net_bit_get words (start + i) then value ||| (1 <<< i) else value)
    0

/-- `d3net_uint_set`: write bit `i` of `value` to position `start + i` for
every `i < length`, threading the dirty flag through `d3net_bit_set`. -/
def d3net_uint_set (words : List Nat) (start length value : Nat) (dirty : Bool) :
    List Nat × Bool :=
  (List.range length).foldl
    (fun st i => d3net_bit_set st.1 (start + i) (Nat.testBit value i) st.2)
    (words, dirty)

/-- `d3net_sint_get`: sign-magnitude decode, the top bit of the field is the
sign, the lower `length - 1` bits the magnitude; fields shorter than 2 bits
decode to 0. -/
def d3net_sint_get (words : List Nat) (start length : Nat) : Int :=
  if length < 2 then 0
  else
    let value : Int := (d3net_uint_get words start (length - 1) : Nat)
    if d3net_bit_get words (start + length - 1) then -value else value

/-- `d3net_sint_set`: sign-magnitude encode; fields shorter than 2 bits are
left untouched. -/
def d3net_sint_set (words : List Nat) (start length : Nat) (value : Int)
    (dirty : Bool) : List Nat × Bool :=
  if length < 2 then (words, dirty)
  else
    let r := d3net_uint_set words start (length - 1) value.natAbs dirty
    d3net_bit_set r.1 (start + length - 1) (decide (value < 0)) r.2

/-! ## System status and unit status views (d3net_codec.c lines 77-214) -/

/-- `d3net_system_unit_connected`: bit `16 + i` of the 9 system-status
words. -/
def d3net_system_unit_connected (s : List Nat) (unit_index : Nat) : Bool :=
  if 64 ≤ unit_index then false else d3net_bit_get s (16 + unit_index)

/-- `d3net_system_unit_error`: bit `80 + i` of the 9 system-status words. -/
def d3net_system_unit_error (s : List Nat) (unit_index : Nat) : Bool :=
  if 64 ≤ unit_index then false else d3net_bit_get s (80 + unit_index)

/-- `d3net_status_power_get`: bit 0 of the 6 status words. -/
def d3net_status_power_get (s : List Nat) : Bool := d3net_bit_get s 0

/-- `d3net_status_fan_dir_get`: bits 8..10. -/
def d3net_status_fan_dir_get (s : List Nat) : Nat := d3net_uint_get s 8 3

/-- `d3net_status_fan_speed_get`: bits 12..14. -/
def d3net_status_fan_speed_get (s : List Nat) : Nat := d3net_uint_get s 12 3

/-- `d3net_status_oper_mode_get`: bits 16..19. -/
def d3net_status_oper_mode_get (s : List Nat) : Nat := d3net_uint_get s 16 4

/-- Status setpoint as the raw signed tenths-of-degree field, bits 32..47.
The C accessors convert through `float` (`x10 / 10.0f` on read,
`llroundf(c * 10.0f)` on write); for every 16-bit sign-magnitude value the
float divide-then-multiply round-trips exactly (the relative error is below
`2 ^ -23`, hence the absolute error below 0.5), so the holding sync below is
modelled as copying the integer field directly. -/
def d3net_status_temp_setpoint_x10 (s : List Nat) : Int := d3net_sint_get s 32 16

/-! ## Holding shadow view (d3net_codec.c lines 216-305) -/

/-- The writeable holding shadow `d3net_unit_holding_t`. -/
structure d3net_unit_holding_t where
  words : List Nat
  dirty : Bool
  last_read_ms : Nat
  last_write_ms : Nat
deriving DecidableEq, Repr

/-- `d3net_holding_power_set`: bit 0, dirty threaded through the shadow. -/
def d3net_holding_power_set (h : d3net_unit_holding_t) (value : Bool) :
    d3net_unit_holding_t :=
  let r := d3net_bit_set h.words 0 value h.dirty
  { h with words := r.1, dirty := r.2 }

/-- `d3net_holding_fan_control_set`: bits 4..7 hold 6 when enabled, 0 when
disabled. -/
def d3net_holding_fan_control_set (h : d3net_unit_holding_t) (enabled : Bool) :
    d3net_unit_holding_t :=
  let r := d3net_uint_set h.words 4 4 (if enabled then 6 else 0) h.dirty
  { h with words := r.1, dirty := r.2 }

/-- `d3net_holding_fan_speed_set`: bits 12..14, and additionally forces the
fan-control-enable field to 6. -/
def d3net_holding_fan_speed_set (h : d3net_unit_holding_t) (speed : Nat) :
    d3net_unit_holding_t :=
  let r := d3net_uint_set h.words 12 3 speed h.dirty
  d3net_holding_fan_control_set { h with words := r.1, dirty := r.2 } true

/-- `d3net_holding_fan_dir_set`: bits 8..10, and additionally forces the
fan-control-enable field to 6. -/
def d3net_holding_fan_dir_set (h : d3net_unit_holding_t) (dir : Nat) :
    d3net_unit_holding_t :=
  let r := d3net_uint_set h.words 8 3 dir h.dirty
  d3net_holding_fan_control_set { h with words := r.1, dirty := r.2 } true

/-- `d3net_holding_oper_mode_set`: bits 16..19. -/
def d3net_holding_oper_mode_set (h : d3net_unit_holding_t) (mode : Nat) :
    d3net_unit_holding_t :=
  let r := d3net_uint_set h.words 16 4 mode h.dirty
  { h with words := r.1, dirty := r.2 }

/-- `d3net_holding_temp_setpoint_set` at the raw tenths field, bits 32..47
(see `d3net_status_temp_setpoint_x10` for the float modelling note). -/
def d3net_holding_temp_setpoint_set_x10 (h : d3net_unit_holding_t) (x10 : Int) :
    d3net_unit_holding_t :=
  let r := d3net_sint_set h.words 32 16 x10 h.dirty
  { h with words := r.1, dirty := r.2 }

/-- `d3net_holding_filter_reset_get`: true when bits 20..23 are non-zero. -/
def d3net_holding_filter_reset_get (h : d3net_unit_holding_t) : Bool :=
  d3net_uint_get h.words 20 4 != 0

/-- `d3net_holding_filter_reset_set`: bits 20..23 hold 15 to assert, 0 to
clear. -/
def d3net_holding_filter_reset_set (h : d3net_unit_holding_t) (value : Bool) :
    d3net_unit_holding_t :=
  let r := d3net_uint_set h.words 20 4 (if value then 15 else 0) h.dirty
  { h with words := r.1, dirty := r.2 }

/-- `d3net_holding_mark_read`: stamp the read clock. -/
def d3net_holding_mark_read (h : d3net_unit_holding_t) (now_ms : Nat) :
    d3net_unit_holding_t :=
  { h with last_read_ms := now_ms }

/-- `d3net_holding_mark_written`: stamp the write clock and clear dirty. -/
def d3net_holding_mark_written (h : d3net_unit_holding_t) (now_ms : Nat) :
    d3net_unit_holding_t :=
  { h with last_write_ms := now_ms, dirty := false }

/-- `d3net_holding_read_within`: last read is non-zero and less than
`sec * 1000` milliseconds old. -/
def d3net_holding_read_within (h : d3net_unit_holding_t) (now_ms sec : Nat) :
    Bool :=
  if h.last_read_ms = 0 then false else now_ms - h.last_read_ms < sec * 1000

/-- `d3net_holding_write_within`: last write is non-zero and less than
`sec * 1000` milliseconds old. -/
def d3net_holding_write_within (h : d3net_unit_holding_t) (now_ms sec : Nat) :
    Bool :=
  if h.last_write_ms = 0 then false else now_ms - h.last_write_ms < sec * 1000

/-- `d3net_holding_sync_from_status`: copy the live power, fan-direction,
fan-speed, operating-mode and setpoint fields from a status view into the
holding shadow, through the ordinary holding setters. -/
def d3net_holding_sync_from_status (h : d3net_unit_holding_t) (s : List Nat) :
    d3net_unit_holding_t :=
  let h1 := d3net_holding_power_set h (d3net_status_power_get s)
  let h2 := d3net_holding_fan_dir_set h1 (d3net_status_fan_dir_get s)
  let h3 := d3net_holding_fan_speed_set h2 (d3net_status_fan_speed_get s)
  let h4 := d3net_holding_oper_mode_set h3 (d3net_status_oper_mode_get s)
  d3net_holding_temp_setpoint_set_x10 h4 (d3net_status_temp_setpoint_x10 s)

/-! ## Modbus RTU framing (modbus_rtu.c) -/

/-- One shift step of `modbus_crc16`: shift right, xor with the reflected
polynomial `0xA001` when the dropped bit was set. -/
def modbus_crc16_bit (crc : Nat) : Nat :=
  if crc % 2 = 1 then (crc / 2) ^^^ 0xA001 else crc / 2

/-- One byte of `modbus_crc16`: xor the byte in, then eight shift steps. -/
def modbus_crc16_byte (crc b : Nat) : Nat :=
  (List.range 8).foldl (fun c _ => modbus_crc16_bit c) (crc ^^^ b)

/-- `modbus_crc16` from modbus_rtu.c: CRC-16/MODBUS with initial value
`0xFFFF`. -/
def modbus_crc16 (data : List Nat) : Nat :=
  data.foldl modbus_crc16_byte 0xFFFF

/-- The 8-byte read request frame built by `modbus_rtu_read_registers`:
slave id, function code (3 for holding, 4 for input), address and count
big-endian, CRC low byte first. -/
def modbus_read_request (slave_id : Nat) (rt : RegType) (address count : Nat) :
    List Nat :=
  let fn := if rt = RegType.holding then 3 else 4
  let body := [slave_id, fn, address / 256 % 256, address % 256,
    count / 256 % 256, count % 256]
  let crc := modbus_crc16 body
  body ++ [crc % 256, crc / 256 % 256]

/-- The receive loop of `rtu_transceive` (modbus_rtu.c lines 76-90): each
entry of `reads` models the byte count one `uart_read_bytes` call returns,
clamped to the bytes still missing; an entry of 0 models a UART timeout,
and expiry of the overall deadline is modelled as the tail of the trace
being exhausted or a 0 entry, both of which break the loop exactly as the C
does. -/
def rtu_recv_loop (expected : Nat) (reads : List Nat) (total : Nat) : Nat :=
  match reads with
  | [] => total
  | r :: rest =>
    if total < expected then
      if 0 < r then rtu_recv_loop expected rest (total + min r (expected - total))
      else total
    else total

/-- Result of `rtu_transceive` after a successful transmit phase: the
received byte count, and `ESP_OK` iff at least 5 bytes arrived
(modbus_rtu.c line 92). -/
def rtu_transceive (expected : Nat) (reads : List Nat) : EspErr × Nat :=
  let total := rtu_recv_loop expected reads 0
  (if 5 ≤ total then EspErr.ok else EspErr.timeout, total)

/-- The receive-status portion of `modbus_rtu_read_registers` and
`modbus_rtu_write_registers`: propagate a transceive error, then turn a
short frame (`got < exp`) into `ESP_ERR_TIMEOUT`. -/
def modbus_read_check (expected : Nat) (reads : List Nat) : EspErr :=
  let r := rtu_transceive expected reads
  if r.1 ≠ EspErr.ok then r.1
  else if r.2 < expected then EspErr.timeout
  else EspErr.ok

/-! ## Gateway model (web_server.c, gateway section) -/

/-- Read oracle standing for `gw->read_fn`: register kind, address and word
count to the read words, or `none` on a transport error. -/
abbrev ReadFn := RegType → Nat → Nat → Option (List Nat)

/-- Write oracle standing for `gw->write_fn`: `true` models `ESP_OK`. -/
abbrev WriteFn := Nat → List Nat → Bool

/-- Transport operations a gateway function emits, in order. -/
inductive Op
  | readInput (addr count : Nat)
  | readHolding (addr count : Nat)
  | write (addr : Nat) (words : List Nat)
deriving DecidableEq, Repr

/-- The per-unit record `d3net_unit_t` (capability, status and holding
views; the error view and id string play no part in the modelled claims'
code paths and are omitted from the record). -/
structure d3net_unit_t where
  present : Bool
  cap : List Nat
  status : List Nat
  holding : d3net_unit_holding_t
deriving DecidableEq, Repr

/-- A unit record as `memset(unit, 0, ...)` leaves it. -/
def d3net_unit_zero : d3net_unit_t :=
  { present := false
    cap := List.replicate 3 0
    status := List.replicate 6 0
    holding := { words := List.replicate 3 0, dirty := false,
                 last_read_ms := 0, last_write_ms := 0 } }

/-- `d3net_holding_write_if_dirty`: no transport when the shadow is clean;
otherwise one holding write of the 3 shadow words at `2000 + 3 * i`,
stamping `last_write_ms` and clearing dirty on success. -/
def d3net_holding_write_if_dirty (wfn : WriteFn) (i : Nat) (u : d3net_unit_t)
    (now_ms : Nat) : EspErr × d3net_unit_t × List Op :=
  if u.holding.dirty = false then (EspErr.ok, u, [])
  else if wfn (2000 + 3 * i) u.holding.words then
    (EspErr.ok, { u with holding := d3net_holding_mark_written u.holding now_ms },
      [Op.write (2000 + 3 * i) u.holding.words])
  else
    (EspErr.fail, u, [Op.write (2000 + 3 * i) u.holding.words])

/-- `d3net_holding_read`: read the 3 holding words at `2000 + 3 * i`,
stamping `last_read_ms` on success; a failed read leaves the unit
untouched. -/
def d3net_holding_read (rfn : ReadFn) (i : Nat) (u : d3net_unit_t)
    (now_ms : Nat) : EspErr × d3net_unit_t × List Op :=
  match rfn RegType.holding (2000 + 3 * i) 3 with
  | some ws =>
    (EspErr.ok,
      { u with holding := d3net_holding_mark_read { u.holding with words := ws } now_ms },
      [Op.readHolding (2000 + 3 * i) 3])
  | none => (EspErr.fail, u, [Op.readHolding (2000 + 3 * i) 3])

/-- `d3net_unit_prepare_write` (web_server.c lines 868-893): reload the
holding shadow when it was never read, or when it is clean and neither read
nor written within `cache_write_s`; after a reload, reconcile with the
status view and flush any resulting dirt. -/
def d3net_unit_prepare_write (rfn : ReadFn) (wfn : WriteFn) (i cache_write_s : Nat)
    (u : d3net_unit_t) (now_ms : Nat) : EspErr × d3net_unit_t × List Op :=
  if u.present = false then (EspErr.invalidArg, u, [])
  else
    let must_reload : Bool :=
      (u.holding.last_read_ms == 0) ||
        (!u.holding.dirty &&
          !d3net_holding_read_within u.holding now_ms cache_write_s &&
          !d3net_holding_write_within u.holding now_ms cache_write_s)
    if must_reload then
      let r1 := d3net_holding_read rfn i u now_ms
      if r1.1 ≠ EspErr.ok then r1
      else
        let u2 := { r1.2.1 with
          holding := d3net_holding_sync_from_status r1.2.1.holding r1.2.1.status }
        if u2.holding.dirty then
          let r2 := d3net_holding_write_if_dirty wfn i u2 now_ms
          (r2.1, r2.2.1, r1.2.2 ++ r2.2.2)
        else (EspErr.ok, u2, r1.2.2)
    else (EspErr.ok, u, [])

/-- `d3net_unit_commit_write` (web_server.c lines 895-911): fold the status
view into the shadow, flush if dirty, then pulse filter-reset back down
with a second write when the shadow carries it asserted. -/
def d3net_unit_commit_write (wfn : WriteFn) (i : Nat) (u : d3net_unit_t)
    (now_ms : Nat) : EspErr × d3net_unit_t × List Op :=
  if u.present = false then (EspErr.invalidArg, u, [])
  else
    let u1 := { u with holding := d3net_holding_sync_from_status u.holding u.status }
    let r1 := d3net_holding_write_if_dirty wfn i u1 now_ms
    if r1.1 ≠ EspErr.ok then r1
    else
      let u2 := r1.2.1
      if d3net_holding_filter_reset_get u2.holding then
        let u3 := { u2 with holding := d3net_holding_filter_reset_set u2.holding false }
        let r2 := d3net_holding_write_if_dirty wfn i u3 now_ms
        (r2.1, r2.2.1, r1.2.2 ++ r2.2.2)
      else (EspErr.ok, u2, r1.2.2)

/-- `d3net_unit_filter_reset` (web_server.c lines 959-966): prepare, assert
filter-reset on the shadow, commit. -/
def d3net_unit_filter_reset (rfn : ReadFn) (wfn : WriteFn) (i cache_write_s : Nat)
    (u : d3net_unit_t) (now_ms : Nat) : EspErr × d3net_unit_t × List Op :=
  let r1 := d3net_unit_prepare_write rfn wfn i cache_write_s u now_ms
  if r1.1 ≠ EspErr.ok then r1
  else
    let u2 := { r1.2.1 with
      holding := d3net_holding_filter_reset_set r1.2.1.holding true }
    let r2 := d3net_unit_commit_write wfn i u2 now_ms
    (r2.1, r2.2.1, r1.2.2 ++ r2.2.2)

/-- One loop body of `d3net_gateway_discover_units` for unit `i`: the unit
starts zeroed; it is skipped unless its connected flag is set and its error
flag clear; a failed capability or status read leaves it absent (with
whatever words were already read), and only full success marks it
present. -/
def discover_unit (rfn : ReadFn) (sys : List Nat) (i : Nat) : d3net_unit_t :=
  if !d3net_system_unit_connected sys i || d3net_system_unit_error sys i then
    d3net_unit_zero
  else
    match rfn RegType.input (1000 + 3 * i) 3 with
    | none => d3net_unit_zero
    | some capw =>
      match rfn RegType.input (2000 + 6 * i) 6 with
      | none => { d3net_unit_zero with cap := capw }
      | some stw => { d3net_unit_zero with present := true, cap := capw, status := stw }

/-- Gateway state as left by a discovery pass. -/
structure d3net_gateway_t where
  system_status : List Nat
  units : List d3net_unit_t
  discovered_count : Nat
deriving DecidableEq, Repr

/-- `d3net_gateway_discover_units` (web_server.c lines 732-781): read the 9
system-status words (failure aborts discovery with that error), then sweep
all 64 unit indices, counting a unit exactly when it ends up present. -/
def d3net_gateway_discover_units (rfn : ReadFn) : Option d3net_gateway_t :=
  match rfn RegType.input 0 9 with
  | none => none
  | some sys =>
    let r := (List.range 64).foldl
      (fun (st : List d3net_unit_t × Nat) i =>
        let u := discover_unit rfn sys i
        (st.1 ++ [u], if u.present then st.2 + 1 else st.2))
      ([], 0)
    some { system_status := sys, units := r.1, discovered_count := r.2 }

/-- One loop body of `d3net_gateway_poll_status` for unit `i`: absent units
are skipped, units written within `cache_write_s` are skipped, otherwise
the 6 status words at `2000 + 6 * i` are read (a failed read keeps the old
status and does not abort the sweep). -/
def poll_unit (rfn : ReadFn) (cache_write_s now_ms i : Nat) (u : d3net_unit_t) :
    d3net_unit_t × List Op :=
  if u.present = false then (u, [])
  else if d3net_holding_write_within u.holding now_ms cache_write_s then (u, [])
  else
    match rfn RegType.input (2000 + 6 * i) 6 with
    | some ws => ({ u with status := ws }, [Op.readInput (2000 + 6 * i) 6])
    | none => (u, [Op.readInput (2000 + 6 * i) 6])

/-- The poll sweep from unit index `i` onward. -/
def poll_status_go (rfn : ReadFn) (cache_write_s now_ms i : Nat)
    (units : List d3net_unit_t) : List d3net_unit_t × List Op :=
  match units with
  | [] => ([], [])
  | u :: rest =>
    let r := poll_unit rfn cache_write_s now_ms i u
    let rr := poll_status_go rfn cache_write_s now_ms (i + 1) rest
    (r.1 :: rr.1, r.2 ++ rr.2)

/-- `d3net_gateway_poll_status` (web_server.c lines 783-811): sweep every
unit starting at index 0. -/
def d3net_gateway_poll_status (rfn : ReadFn) (cache_write_s now_ms : Nat)
    (units : List d3net_unit_t) : List d3net_unit_t × List Op :=
  poll_status_go rfn cache_write_s now_ms 0 units

/-- Number of holding-register reads in an operation log. -/
def count_holding_reads (l : List Op) : Nat :=
  l.countP fun o => match o with
    | Op.readHolding _ _ => true
    | _ => false

/-- The fields `d3net_holding_sync_from_status` writes differ from what the
shadow already holds: the five copied fields, or a fan-control-enable field
not already equal to 6. -/
def sync_changed (h : d3net_unit_holding_t) (s : List Nat) : Bool :=
  (d3net_bit_get h.words 0 != d3net_status_power_get s) ||
  (d3net_uint_get h.words 8 3 != d3net_status_fan_dir_get s) ||
  (d3net_uint_get h.words 4 4 != 6) ||
  (d3net_uint_get h.words 12 3 != d3net_status_fan_speed_get s) ||
  (d3net_uint_get h.words 16 4 != d3net_status_oper_mode_get s) ||
  (d3net_uint_get h.words 32 15 != (d3net_status_temp_setpoint_x10 s).natAbs) ||
  (d3net_bit_get h.words 47 != decide (d3net_status_temp_setpoint_x10 s < 0))

/-- `d3net_holding_power_get`: bit 0 of the holding shadow. -/
def d3net_holding_power_get (h : d3net_unit_holding_t) : Bool :=
  d3net_bit_get h.words 0

/-- `d3net_holding_fan_dir_get`: bits 8..10 of the holding shadow. -/
def d3net_holding_fan_dir_get (h : d3net_unit_holding_t) : Nat :=
  d3net_uint_get h.words 8 3

/-- `d3net_holding_fan_speed_get`: bits 12..14 of the holding shadow. -/
def d3net_holding_fan_speed_get (h : d3net_unit_holding_t) : Nat :=
  d3net_uint_get h.words 12 3

/-- `d3net_holding_oper_mode_get`: bits 16..19 of the holding shadow. -/
def d3net_holding_oper_mode_get (h : d3net_unit_holding_t) : Nat :=
  d3net_uint_get h.words 16 4

/-- Holding setpoint as the raw signed tenths field, bits 32..47. -/
def d3net_holding_temp_setpoint_x10 (h : d3net_unit_holding_t) : Int :=
  d3net_sint_get h.words 32 16

/-- `d3net_holding_fan_control_get`: true when bits 4..7 hold exactly 6. -/
def d3net_holding_fan_control_get (h : d3net_unit_holding_t) : Bool :=
  d3net_uint_get h.words 4 4 == 6

/-! ## Concrete fixtures used by witnesses and counterexamples -/

/-- Read oracle for the discovery witness: units 0, 1, 2 connected, unit 2
also in error, capability and status reads succeed only for unit 0. -/
def discover_rfn_w : ReadFn := fun rt addr _count =>
  match rt with
  | RegType.holding => none
  | RegType.input =>
    if addr = 0 then some [1, 7, 0, 0, 0, 4, 0, 0, 0]
    else if addr = 1000 then some [0, 0, 0]
    else if addr = 2000 then some [0, 0, 0, 0, 0, 0]
    else none

/-- The gateway state the discovery witness produces. -/
def discover_gw_w : d3net_gateway_t :=
  (d3net_gateway_discover_units discover_rfn_w).getD
    { system_status := [], units := [], discovered_count := 0 }

/-- All-zero holding shadow for the sync counterexample. -/
def c4_holding : d3net_unit_holding_t :=
  { words := [0, 0, 0], dirty := false, last_read_ms := 0, last_write_ms := 0 }

/-- Holding shadow with junk field values for the sync witness. -/
def c4w_holding : d3net_unit_holding_t :=
  { words := [4097, 240, 33], dirty := false, last_read_ms := 0, last_write_ms := 0 }

/-- Status words for the sync witness. -/
def c4w_status : List Nat := [4353, 514, 3, 0, 9, 0]

/-- Unit whose shadow already carries filter-reset asserted: fan-control 6
(word 0 = 0x60), filter field 15 (word 1 = 0xF0), fresh clean shadow. -/
def c3cex_unit : d3net_unit_t :=
  { present := true
    cap := [0, 0, 0]
    status := [0, 0, 0, 0, 0, 0]
    holding := { words := [96, 240, 0], dirty := false, last_read_ms := 1000,
                 last_write_ms := 0 } }

/-- Unit with a fresh, clean, in-sync shadow and filter-reset clear. -/
def c3_unit : d3net_unit_t :=
  { present := true
    cap := [0, 0, 0]
    status := [0, 0, 0, 0, 0, 0]
    holding := { words := [96, 0, 0], dirty := false, last_read_ms := 1,
                 last_write_ms := 0 } }

/-- Present unit with a never-read holding shadow. -/
def c6_unit : d3net_unit_t :=
  { present := true
    cap := [0, 0, 0]
    status := [0, 0, 0, 0, 0, 0]
    holding := { words := [0, 0, 0], dirty := false, last_read_ms := 0,
                 last_write_ms := 0 } }

/-- Present dirty unit, before the time-zero write of the poll
counterexample. -/
def c7_unit_before : d3net_unit_t :=
  { present := true
    cap := [0, 0, 0]
    status := [0, 0, 0, 0, 0, 0]
    holding := { words := [0, 0, 0], dirty := true, last_read_ms := 0,
                 last_write_ms := 0 } }

/-- The unit after a successful holding write at time 0. -/
def c7_unit_after : d3net_unit_t :=
  (d3net_holding_write_if_dirty (fun _ _ => true) 0 c7_unit_before 0).2.1

/-- Present unit written successfully at 5000 ms, for the poll witness. -/
def c7w_unit : d3net_unit_t :=
  { present := true
    cap := [0, 0, 0]
    status := [0, 0, 0, 0, 0, 0]
    holding := { words := [0, 0, 0], dirty := false, last_read_ms := 0,
                 last_write_ms := 5000 } }

/-! ## Codec lemmas -/

theorem getD_set_self (l : List Nat) (i a : Nat) (h : i < l.length) :
    (l.set i a).getD i 0 = a := by
  simp [List.getD_eq_getElem?_getD, List.getElem?_set_self h]

theorem getD_set_ne (l : List Nat) (i j a : Nat) (h : i ≠ j) :
    (l.set i a).getD j 0 = l.getD j 0 := by
  simp [List.getD_eq_getElem?_getD, List.getElem?_set_ne h]

theorem shiftLeft_one_eq_pow (k : Nat) : (1 : Nat) <<< k = 2 ^ k := by
  simp [Nat.shiftLeft_eq]

theorem testBit_one_shiftLeft (k j : Nat) :
    Nat.testBit (1 <<< k) j = decide (k = j) := by
  rw [shiftLeft_one_eq_pow, Nat.testBit_two_pow]

theorem testBit_mask_lo (k j : Nat) (hj : j < 16) :
    Nat.testBit (65535 ^^^ 1 <<< k) j = !(decide (k = j)) := by
  have h : (65535 : Nat) = 2 ^ 16 - 1 := by norm_num
  rw [Nat.testBit_xor, testBit_one_shiftLeft, h, Nat.testBit_two_pow_sub_one]
  simp [hj]

theorem d3net_bit_set_length (words : List Nat) (p : Nat) (v d : Bool) :
    ((d3net_bit_set words p v d).1).length = words.length := by
  unfold d3net_bit_set
  split
  · split
    · rfl
    · split <;> simp
  · rfl

theorem d3net_bit_get_set_same (words : List Nat) (p : Nat) (v d : Bool)
    (h : p / 16 < words.length) :
    d3net_bit_get (d3net_bit_set words p v d).1 p = v := by
  unfold d3net_bit_set
  rw [if_pos h]
  by_cases hc : Nat.testBit (words.getD (p / 16) 0) (p % 16) = v
  · rw [if_pos hc]
    unfold d3net_bit_get
    rw [if_pos h]
    exact hc
  · rw [if_neg hc]
    cases v with
    | true =>
      rw [if_pos rfl]
      show d3net_bit_get (words.set (p / 16) _) p = true
      unfold d3net_bit_get
      rw [List.length_set, if_pos h, getD_set_self _ _ _ h, Nat.testBit_or,
        testBit_one_shiftLeft]
      simp
    | false =>
      rw [if_neg Bool.false_ne_true]
      show d3net_bit_get (words.set (p / 16) _) p = false
      unfold d3net_bit_get
      rw [List.length_set, if_pos h, getD_set_self _ _ _ h, Nat.testBit_and,
        testBit_mask_lo _ _ (Nat.mod_lt _ (by omega))]
      simp

theorem d3net_bit_get_set_ne (words : List Nat) (p q : Nat) (v d : Bool)
    (h : p ≠ q) :
    d3net_bit_get (d3net_bit_set words p v d).1 q = d3net_bit_get words q := by
  have hq : q % 16 < 16 := Nat.mod_lt _ (by omega)
  unfold d3net_bit_set
  by_cases hv : p / 16 < words.length
  · rw [if_pos hv]
    by_cases hc : Nat.testBit (words.getD (p / 16) 0) (p % 16) = v
    · rw [if_pos hc]
    · rw [if_neg hc]
      by_cases hw : p / 16 = q / 16
      · have hb : p % 16 ≠ q % 16 := by omega
        cases v with
        | true =>
          rw [if_pos rfl]
          show d3net_bit_get (words.set (p / 16) _) q = _
          unfold d3net_bit_get
          rw [List.length_set, hw, getD_set_self _ _ _ (hw ▸ hv), Nat.testBit_or,
            testBit_one_shiftLeft, ← hw]
          simp [hb]
        | false =>
          rw [if_neg Bool.false_ne_true]
          show d3net_bit_get (words.set (p / 16) _) q = _
          unfold d3net_bit_get
          rw [List.length_set, hw, getD_set_self _ _ _ (hw ▸ hv), Nat.testBit_and,
            testBit_mask_lo _ _ hq, ← hw]
          simp [hb]
      · cases v with
        | true =>
          rw [if_pos rfl]
          show d3net_bit_get (words.set (p / 16) _) q = _
          unfold d3net_bit_get
          rw [List.length_set, getD_set_ne _ _ _ _ hw]
        | false =>
          rw [if_neg Bool.false_ne_true]
          show d3net_bit_get (words.set (p / 16) _) q = _
          unfold d3net_bit_get
          rw [List.length_set, getD_set_ne _ _ _ _ hw]
  · rw [if_neg hv]

theorem d3net_bit_set_noop (words : List Nat) (p : Nat) (v d : Bool)
    (hvld : p / 16 < words.length) (h : d3net_bit_get words p = v) :
    d3net_bit_set words p v d = (words, d) := by
  unfold d3net_bit_get at h
  rw [if_pos hvld] at h
  unfold d3net_bit_set
  rw [if_pos hvld, if_pos h]

theorem d3net_bit_set_invalid (words : List Nat) (p : Nat) (v d : Bool)
    (hvld : ¬ p / 16 < words.length) :
    d3net_bit_set words p v d = (words, d) := by
  unfold d3net_bit_set
  rw [if_neg hvld]

theorem d3net_bit_set_dirty (words : List Nat) (p : Nat) (v d : Bool)
    (hvld : p / 16 < words.length) :
    (d3net_bit_set words p v d).2 = (d || (d3net_bit_get words p != v)) := by
  unfold d3net_bit_set d3net_bit_get
  rw [if_pos hvld, if_pos hvld]
  by_cases hc : Nat.testBit (words.getD (p / 16) 0) (p % 16) = v
  · rw [if_pos hc, hc]
    simp
  · rw [if_neg hc, bne_iff_ne.mpr hc]
    cases v with
    | true =>
      rw [if_pos rfl]
      simp
    | false =>
      rw [if_neg Bool.false_ne_true]
      simp

theorem d3net_bit_set_dirty_mono (words : List Nat) (p : Nat) (v : Bool) :
    (d3net_bit_set words p v true).2 = true := by
  unfold d3net_bit_set
  split
  · split
    · rfl
    · split <;> rfl
  · rfl

theorem d3net_uint_set_succ (words : List Nat) (start len value : Nat) (d : Bool) :
    d3net_uint_set words start (len + 1) value d =
      d3net_bit_set (d3net_uint_set words start len value d).1 (start + len)
        (Nat.testBit value len) (d3net_uint_set words start len value d).2 := by
  unfold d3net_uint_set
  rw [List.range_succ, List.foldl_append]
  rfl

theorem d3net_uint_get_succ (words : List Nat) (start len : Nat) :
    d3net_uint_get words start (len + 1) =
      if d3net_bit_get words (start + len) then
        d3net_uint_get words start len ||| 1 <<< len
      else d3net_uint_get words start len := by
  unfold d3net_uint_get
  rw [List.range_succ, List.foldl_append]
  rfl

theorem d3net_uint_set_length (words : List Nat) (start len value : Nat) (d : Bool) :
    ((d3net_uint_set words start len value d).1).length = words.length := by
  induction len with
  | zero => rfl
  | succ n ih => rw [d3net_uint_set_succ, d3net_bit_set_length, ih]

theorem d3net_uint_set_dirty_mono (words : List Nat) (start len value : Nat) :
    (d3net_uint_set words start len value true).2 = true := by
  induction len with
  | zero => rfl
  | succ n ih => rw [d3net_uint_set_succ, ih, d3net_bit_set_dirty_mono]

theorem d3net_bit_get_uint_set_out (words : List Nat) (start len value : Nat)
    (d : Bool) (q : Nat) (h : ∀ i, i < len → start + i ≠ q) :
    d3net_bit_get (d3net_uint_set words start len value d).1 q =
      d3net_bit_get words q := by
  induction len with
  | zero => rfl
  | succ n ih =>
    rw [d3net_uint_set_succ, d3net_bit_get_set_ne _ _ _ _ _ (h n (by omega)),
      ih (fun i hi => h i (by omega))]

theorem d3net_bit_get_uint_set_in (words : List Nat) (start len value : Nat)
    (d : Bool) (j : Nat) (hj : j < len) (hvld : (start + j) / 16 < words.length) :
    d3net_bit_get (d3net_uint_set words start len value d).1 (start + j) =
      Nat.testBit value j := by
  induction len with
  | zero => omega
  | succ n ih =>
    rw [d3net_uint_set_succ]
    by_cases hjn : j = n
    · subst hjn
      exact d3net_bit_get_set_same _ _ _ _
        (by rw [d3net_uint_set_length]; exact hvld)
    · rw [d3net_bit_get_set_ne _ _ _ _ _ (by omega)]
      exact ih (by omega)

theorem d3net_uint_get_testBit (words : List Nat) (start len j : Nat) :
    Nat.testBit (d3net_uint_get words start len) j =
      (decide (j < len) && d3net_bit_get words (start + j)) := by
  induction len with
  | zero => simp [d3net_uint_get]
  | succ n ih =>
    rw [d3net_uint_get_succ]
    by_cases hb : d3net_bit_get words (start + n)
    · rw [if_pos hb, Nat.testBit_or, ih, testBit_one_shiftLeft]
      by_cases hj : j = n
      · subst hj
        simp [hb]
      · have hnj : decide (n = j) = false := decide_eq_false fun h => hj h.symm
        have hdec : decide (j < n) = decide (j < n + 1) :=
          decide_eq_decide.mpr (by omega)
        rw [hnj, Bool.or_false, hdec]
    · rw [if_neg hb, ih]
      by_cases hj : j = n
      · subst hj
        simp [hb]
      · have hdec : decide (j < n) = decide (j < n + 1) :=
          decide_eq_decide.mpr (by omega)
        rw [hdec]

theorem d3net_uint_get_lt (words : List Nat) (start len : Nat) :
    d3net_uint_get words start len < 2 ^ len := by
  induction len with
  | zero => simp [d3net_uint_get]
  | succ n ih =>
    have hle : (2 : Nat) ^ n ≤ 2 ^ (n + 1) := Nat.pow_le_pow_right (by omega) (by omega)
    rw [d3net_uint_get_succ]
    by_cases hb : d3net_bit_get words (start + n)
    · rw [if_pos hb]
      exact Nat.or_lt_two_pow (by omega)
        (by rw [shiftLeft_one_eq_pow]; exact Nat.pow_lt_pow_right (by omega) (by omega))
    · rw [if_neg hb]
      omega

theorem d3net_uint_get_set (words : List Nat) (start len value : Nat) (d : Bool)
    (hrange : start + len ≤ 16 * words.length) (hv : value < 2 ^ len) :
    d3net_uint_get (d3net_uint_set words start len value d).1 start len = value := by
  apply Nat.eq_of_testBit_eq
  intro j
  rw [d3net_uint_get_testBit]
  by_cases hj : j < len
  · have hvld : (start + j) / 16 < words.length := by
      rw [Nat.div_lt_iff_lt_mul (by omega : 0 < 16)]
      omega
    rw [d3net_bit_get_uint_set_in _ _ _ _ _ _ hj hvld]
    simp [hj]
  · have hz : Nat.testBit value j = false :=
      Nat.testBit_lt_two_pow
        (lt_of_lt_of_le hv (Nat.pow_le_pow_right (by omega) (by omega)))
    simp [hj, hz]

theorem d3net_uint_set_noop (words : List Nat) (start len value : Nat) (d : Bool)
    (h : ∀ i, i < len → d3net_bit_get words (start + i) = Nat.testBit value i) :
    d3net_uint_set words start len value d = (words, d) := by
  induction len with
  | zero => rfl
  | succ n ih =>
    rw [d3net_uint_set_succ, ih (fun i hi => h i (by omega))]
    show d3net_bit_set words (start + n) (Nat.testBit value n) d = (words, d)
    by_cases hvld : (start + n) / 16 < words.length
    · exact d3net_bit_set_noop _ _ _ _ hvld (h n (by omega))
    · exact d3net_bit_set_invalid _ _ _ _ hvld

theorem d3net_uint_set_dirty_of_diff (words : List Nat) (start len value : Nat)
    (d : Bool) (j : Nat) (hj : j < len) (hvld : (start + j) / 16 < words.length)
    (hne : d3net_bit_get words (start + j) ≠ Nat.testBit value j) :
    (d3net_uint_set words start len value d).2 = true := by
  induction len with
  | zero => omega
  | succ n ih =>
    rw [d3net_uint_set_succ]
    by_cases hjn : j = n
    · subst hjn
      rw [d3net_bit_set_dirty _ _ _ _ (by rw [d3net_uint_set_length]; exact hvld),
        d3net_bit_get_uint_set_out _ _ _ _ _ _ (fun i hi => by omega),
        bne_iff_ne.mpr hne]
      simp
    · rw [ih (by omega), d3net_bit_set_dirty_mono]

theorem d3net_uint_set_dirty (words : List Nat) (start len value : Nat) (d : Bool)
    (hrange : start + len ≤ 16 * words.length) (hv : value < 2 ^ len) :
    (d3net_uint_set words start len value d).2 =
      (d || (d3net_uint_get words start len != value)) := by
  by_cases heq : d3net_uint_get words start len = value
  · have hbits : ∀ i, i < len → d3net_bit_get words (start + i) = Nat.testBit value i := by
      intro i hi
      rw [← heq, d3net_uint_get_testBit]
      simp [hi]
    rw [d3net_uint_set_noop _ _ _ _ _ hbits, heq]
    simp
  · have hex : ∃ j, j < len ∧ d3net_bit_get words (start + j) ≠ Nat.testBit value j := by
      by_contra hno
      push_neg at hno
      apply heq
      apply Nat.eq_of_testBit_eq
      intro j
      rw [d3net_uint_get_testBit]
      by_cases hj : j < len
      · simp [hj, hno j hj]
      · have hz : Nat.testBit value j = false :=
          Nat.testBit_lt_two_pow
            (lt_of_lt_of_le hv (Nat.pow_le_pow_right (by omega) (by omega)))
        simp [hj, hz]
    obtain ⟨j, hj, hdiff⟩ := hex
    have hvld : (start + j) / 16 < words.length := by
      rw [Nat.div_lt_iff_lt_mul (by omega : 0 < 16)]
      omega
    rw [d3net_uint_set_dirty_of_diff _ _ _ _ _ j hj hvld hdiff,
      bne_iff_ne.mpr heq]
    simp

theorem d3net_uint_get_congr (a b : List Nat) (start len : Nat)
    (h : ∀ i, i < len → d3net_bit_get a (start + i) = d3net_bit_get b (start + i)) :
    d3net_uint_get a start len = d3net_uint_get b start len := by
  induction len with
  | zero => rfl
  | succ n ih =>
    rw [d3net_uint_get_succ, d3net_uint_get_succ, ih (fun i hi => h i (by omega)),
      h n (by omega)]

theorem d3net_sint_set_eq (words : List Nat) (start len : Nat) (v : Int) (d : Bool)
    (h2 : 2 ≤ len) :
    d3net_sint_set words start len v d =
      d3net_bit_set (d3net_uint_set words start (len - 1) v.natAbs d).1
        (start + len - 1) (decide (v < 0))
        (d3net_uint_set words start (len - 1) v.natAbs d).2 := by
  unfold d3net_sint_set
  rw [if_neg (by omega)]

theorem d3net_sint_get_eq (words : List Nat) (start len : Nat) (h2 : 2 ≤ len) :
    d3net_sint_get words start len =
      if d3net_bit_get words (start + len - 1) then
        -(d3net_uint_get words start (len - 1) : Int)
      else (d3net_uint_get words start (len - 1) : Int) := by
  unfold d3net_sint_get
  rw [if_neg (by omega)]

theorem d3net_sint_get_set (words : List Nat) (start len : Nat) (v : Int) (d : Bool)
    (h2 : 2 ≤ len) (hrange : start + len ≤ 16 * words.length)
    (hmag : v.natAbs < 2 ^ (len - 1)) :
    d3net_sint_get (d3net_sint_set words start len v d).1 start len = v := by
  rw [d3net_sint_set_eq _ _ _ _ _ h2, d3net_sint_get_eq _ _ _ h2]
  have hmagbits :
      d3net_uint_get
        ((d3net_bit_set (d3net_uint_set words start (len - 1) v.natAbs d).1
          (start + len - 1) (decide (v < 0))
          (d3net_uint_set words start (len - 1) v.natAbs d).2).1) start (len - 1) =
        v.natAbs := by
    rw [d3net_uint_get_congr _ (d3net_uint_set words start (len - 1) v.natAbs d).1
      start (len - 1) (fun i hi => d3net_bit_get_set_ne _ _ _ _ _ (by omega))]
    exact d3net_uint_get_set _ _ _ _ _ (by omega) hmag
  have hsign :
      d3net_bit_get
        ((d3net_bit_set (d3net_uint_set words start (len - 1) v.natAbs d).1
          (start + len - 1) (decide (v < 0))
          (d3net_uint_set words start (len - 1) v.natAbs d).2).1)
        (start + len - 1) = decide (v < 0) := by
    apply d3net_bit_get_set_same
    rw [d3net_uint_set_length, Nat.div_lt_iff_lt_mul (by omega : 0 < 16)]
    omega
  rw [hmagbits, hsign]
  by_cases hv : v < 0
  · rw [if_pos (decide_eq_true hv)]
    omega
  · rw [if_neg (by simpa using hv)]
    omega

theorem d3net_sint_set_dirty_mono (w : List Nat) (s l : Nat) (v : Int) :
    (d3net_sint_set w s l v true).2 = true := by
  unfold d3net_sint_set
  split
  · rfl
  · show (d3net_bit_set (d3net_uint_set w s (l - 1) v.natAbs true).1 (s + l - 1)
      (decide (v < 0)) (d3net_uint_set w s (l - 1) v.natAbs true).2).2 = true
    rw [d3net_uint_set_dirty_mono, d3net_bit_set_dirty_mono]

theorem holding_power_set_dirty_mono (h : d3net_unit_holding_t) (v : Bool)
    (hd : h.dirty = true) : (d3net_holding_power_set h v).dirty = true := by
  simp only [d3net_holding_power_set]
  rw [hd]
  exact d3net_bit_set_dirty_mono h.words 0 v

theorem holding_fan_control_set_dirty_mono (h : d3net_unit_holding_t) (v : Bool)
    (hd : h.dirty = true) : (d3net_holding_fan_control_set h v).dirty = true := by
  simp only [d3net_holding_fan_control_set]
  rw [hd]
  exact d3net_uint_set_dirty_mono h.words 4 4 _

theorem holding_fan_speed_set_dirty_mono (h : d3net_unit_holding_t) (v : Nat)
    (hd : h.dirty = true) : (d3net_holding_fan_speed_set h v).dirty = true := by
  apply holding_fan_control_set_dirty_mono
  show (d3net_uint_set h.words 12 3 v h.dirty).2 = true
  rw [hd]
  exact d3net_uint_set_dirty_mono h.words 12 3 v

theorem holding_fan_dir_set_dirty_mono (h : d3net_unit_holding_t) (v : Nat)
    (hd : h.dirty = true) : (d3net_holding_fan_dir_set h v).dirty = true := by
  apply holding_fan_control_set_dirty_mono
  show (d3net_uint_set h.words 8 3 v h.dirty).2 = true
  rw [hd]
  exact d3net_uint_set_dirty_mono h.words 8 3 v

theorem holding_oper_mode_set_dirty_mono (h : d3net_unit_holding_t) (v : Nat)
    (hd : h.dirty = true) : (d3net_holding_oper_mode_set h v).dirty = true := by
  simp only [d3net_holding_oper_mode_set]
  rw [hd]
  exact d3net_uint_set_dirty_mono h.words 16 4 v

theorem holding_temp_set_dirty_mono (h : d3net_unit_holding_t) (v : Int)
    (hd : h.dirty = true) : (d3net_holding_temp_setpoint_set_x10 h v).dirty = true := by
  simp only [d3net_holding_temp_setpoint_set_x10]
  rw [hd]
  exact d3net_sint_set_dirty_mono h.words 32 16 v

theorem holding_filter_reset_set_dirty_mono (h : d3net_unit_holding_t) (v : Bool)
    (hd : h.dirty = true) : (d3net_holding_filter_reset_set h v).dirty = true := by
  simp only [d3net_holding_filter_reset_set]
  rw [hd]
  exact d3net_uint_set_dirty_mono h.words 20 4 _

theorem holding_sync_dirty_mono (h : d3net_unit_holding_t) (s : List Nat)
    (hd : h.dirty = true) : (d3net_holding_sync_from_status h s).dirty = true := by
  unfold d3net_holding_sync_from_status
  apply holding_temp_set_dirty_mono
  apply holding_oper_mode_set_dirty_mono
  apply holding_fan_speed_set_dirty_mono
  apply holding_fan_dir_set_dirty_mono
  exact holding_power_set_dirty_mono h _ hd

/-! ## Claim theorems -/

/-- C5: for every start in `[0, 144 - len]`, every len in `[1, 32]` and every
value below `2 ^ len`, `d3net_uint_set` followed by `d3net_uint_get` at the
same position returns the value on a 9-word buffer with arbitrary initial
contents, including bit ranges that cross 16-bit word boundaries. -/
theorem uint_set_get_roundtrip (words : List Nat) (start len value : Nat) (d : Bool)
    (hw : words.length = 9) (hlen1 : 1 ≤ len) (hlen2 : len ≤ 32)
    (hstart : start + len ≤ 144) (hv : value < 2 ^ len) :
    d3net_uint_get (d3net_uint_set words start len value d).1 start len = value :=
  d3net_uint_get_set words start len value d (by omega) hv

/-- C5 witness: a 20-bit value written at bit 30 of a 9-word buffer full of
junk reads back unchanged. -/
theorem uint_set_get_roundtrip_witness :
    d3net_uint_get
      (d3net_uint_set [65535, 4660, 43690, 513, 65535, 1, 2, 3, 4] 30 20 777777
        false).1 30 20 = 777777 :=
  uint_set_get_roundtrip [65535, 4660, 43690, 513, 65535, 1, 2, 3, 4] 30 20 777777
    false (by rfl) (by omega) (by omega) (by omega) (by omega)

/-- C1: for every bit length in `[2, 17]` and every strictly in-range value,
`d3net_sint_set` followed by `d3net_sint_get` at the same position returns
the value (sign-magnitude encoding, not two's complement), and any buffer
carrying the negative-zero pattern (sign bit set, magnitude zero) decodes
to 0. -/
theorem sint_set_get_roundtrip (words ws : List Nat) (start len : Nat) (v : Int)
    (d : Bool) (hw : words.length = 9) (hlen1 : 2 ≤ len) (hlen2 : len ≤ 17)
    (hstart : start + len ≤ 144)
    (hlo : -(2 ^ (len - 1) : Int) < v) (hhi : v < (2 ^ (len - 1) : Int))
    (hsign : d3net_bit_get ws (start + len - 1) = true)
    (hzero : d3net_uint_get ws start (len - 1) = 0) :
    d3net_sint_get (d3net_sint_set words start len v d).1 start len = v ∧
    d3net_sint_get ws start len = 0 := by
  have hcast : ((2 : Int) ^ (len - 1)) = ((2 ^ (len - 1) : Nat) : Int) := by
    push_cast
    ring
  constructor
  · apply d3net_sint_get_set _ _ _ _ _ hlen1 (by omega)
    rw [hcast] at hlo hhi
    omega
  · rw [d3net_sint_get_eq _ _ _ hlen1, hsign, if_pos rfl, hzero]
    simp

/-- C1 witness: writing -65535 into a 17-bit field at bit 30 of a buffer of
all-ones words reads back -65535, and the explicit negative-zero pattern at
the same field decodes to 0. -/
theorem sint_set_get_roundtrip_witness :
    d3net_sint_get
      (d3net_sint_set [65535, 65535, 65535, 65535, 65535, 65535, 65535, 65535, 65535]
        30 17 (-65535) false).1 30 17 = -65535 ∧
    d3net_sint_get [0, 0, 16384, 0, 0, 0, 0, 0, 0] 30 17 = 0 :=
  sint_set_get_roundtrip
    [65535, 65535, 65535, 65535, 65535, 65535, 65535, 65535, 65535]
    [0, 0, 16384, 0, 0, 0, 0, 0, 0] 30 17 (-65535) false (by rfl) (by omega)
    (by omega) (by omega) (by decide) (by decide) (by decide) (by decide)

set_option maxRecDepth 4096 in
/-- C8 counterexample: CRC-16/MODBUS of `01 04 00 00 00 09` is `0x0C30`, so
the framed request ends in `30 0C`, not in the `30 3A` the claim states. -/
theorem modbus_frame_crc_cex :
    modbus_crc16 [1, 4, 0, 0, 0, 9] = 0x0C30 ∧
    ¬ (modbus_crc16 [1, 4, 0, 0, 0, 9] = 0x3A30 ∧
       modbus_read_request 1 RegType.input 0 9 = [1, 4, 0, 0, 0, 9, 0x30, 0x3A]) := by
  decide

set_option maxRecDepth 4096 in
/-- C8 (amended): an input-register read request for address 0, count 9,
slave id 1 is framed as exactly `01 04 00 00 00 09 30 0C`; the
CRC-16/MODBUS of the six body bytes equals `0x0C30` and is transmitted low
byte first. -/
theorem modbus_frame_read9 :
    modbus_read_request 1 RegType.input 0 9 = [1, 4, 0, 0, 0, 9, 0x30, 0x0C] ∧
    modbus_crc16 [1, 4, 0, 0, 0, 9] = 0x0C30 ∧
    (modbus_read_request 1 RegType.input 0 9).getD 6 0 =
      modbus_crc16 [1, 4, 0, 0, 0, 9] % 256 := by
  decide

/-- C9 counterexample: with 23 bytes expected, a receive trace that
delivers 5 bytes and then times out makes `rtu_transceive` report success
even though the expected length was not reached, and it does not return a
timeout despite the short count. -/
theorem rtu_transceive_short_ok_cex :
    (rtu_transceive 23 [5, 0]).1 = EspErr.ok ∧
    (rtu_transceive 23 [5, 0]).2 = 5 ∧
    ¬ (23 : Nat) ≤ (rtu_transceive 23 [5, 0]).2 := by
  decide

/-- C9 (amended): `rtu_transceive` itself reports success iff at least 5
bytes were received; the expected-length requirement is enforced by its
callers, which convert a short frame into a timeout error, so the combined
receive path succeeds iff at least 5 bytes arrived and the expected length
was reached. -/
theorem rtu_transceive_result_spec (expected : Nat) (reads : List Nat) :
    ((rtu_transceive expected reads).1 = EspErr.ok ↔
      5 ≤ (rtu_transceive expected reads).2) ∧
    (modbus_read_check expected reads = EspErr.ok ↔
      5 ≤ (rtu_transceive expected reads).2 ∧
        expected ≤ (rtu_transceive expected reads).2) := by
  unfold modbus_read_check rtu_transceive
  dsimp only
  by_cases h5 : 5 ≤ rtu_recv_loop expected reads 0
  · rw [if_pos h5]
    by_cases he : rtu_recv_loop expected reads 0 < expected
    · rw [if_neg (by simp), if_pos he]
      refine ⟨by simp [h5], ?_⟩
      constructor
      · intro hx
        exact absurd hx (by decide)
      · intro hx
        omega
    · rw [if_neg (by simp), if_neg he]
      refine ⟨by simp [h5], ?_⟩
      constructor
      · intro _
        exact ⟨h5, by omega⟩
      · intro _
        rfl
  · rw [if_neg h5]
    refine ⟨?_, ?_⟩
    · constructor
      · intro hx
        exact absurd hx (by decide)
      · intro hx
        omega
    · rw [if_pos (by decide)]
      constructor
      · intro hx
        exact absurd hx (by decide)
      · intro hx
        omega

/-- C10: the dirty flag is monotone under every codec setter and holding
field setter (a set that makes no actual change leaves it alone, an actual
change forces it to true, and none of them ever lowers it); `mark_read`
does not touch it; the only operation clearing it is
`d3net_holding_mark_written`, and the shadow's dirty flag is cleared by a
dirty flush iff the transport write succeeded. -/
theorem dirty_monotone_spec :
    (∀ w p v, (d3net_bit_set w p v true).2 = true) ∧
    (∀ w s l v, (d3net_uint_set w s l v true).2 = true) ∧
    (∀ w s l (v : Int), (d3net_sint_set w s l v true).2 = true) ∧
    (∀ h v, h.dirty = true → (d3net_holding_power_set h v).dirty = true) ∧
    (∀ h v, h.dirty = true → (d3net_holding_fan_control_set h v).dirty = true) ∧
    (∀ h v, h.dirty = true → (d3net_holding_fan_speed_set h v).dirty = true) ∧
    (∀ h v, h.dirty = true → (d3net_holding_fan_dir_set h v).dirty = true) ∧
    (∀ h v, h.dirty = true → (d3net_holding_oper_mode_set h v).dirty = true) ∧
    (∀ h (v : Int), h.dirty = true →
      (d3net_holding_temp_setpoint_set_x10 h v).dirty = true) ∧
    (∀ h v, h.dirty = true → (d3net_holding_filter_reset_set h v).dirty = true) ∧
    (∀ h s, h.dirty = true → (d3net_holding_sync_from_status h s).dirty = true) ∧
    (∀ h t, (d3net_holding_mark_read h t).dirty = h.dirty) ∧
    (∀ h t, (d3net_holding_mark_written h t).dirty = false) ∧
    (∀ wfn i u t, u.holding.dirty = true →
      (((d3net_holding_write_if_dirty wfn i u t).2.1).holding.dirty = false ↔
        wfn (2000 + 3 * i) u.holding.words = true)) := by
  refine ⟨d3net_bit_set_dirty_mono, d3net_uint_set_dirty_mono,
    d3net_sint_set_dirty_mono, holding_power_set_dirty_mono,
    holding_fan_control_set_dirty_mono, holding_fan_speed_set_dirty_mono,
    holding_fan_dir_set_dirty_mono, holding_oper_mode_set_dirty_mono,
    holding_temp_set_dirty_mono, holding_filter_reset_set_dirty_mono,
    holding_sync_dirty_mono, fun h t => rfl, fun h t => rfl, ?_⟩
  intro wfn i u t hd
  unfold d3net_holding_write_if_dirty
  rw [if_neg (by simp [hd])]
  by_cases hwr : wfn (2000 + 3 * i) u.holding.words = true
  · rw [if_pos hwr]
    simp [d3net_holding_mark_written, hwr]
  · rw [if_neg hwr]
    simp [hd, hwr]

/-- C10 witness: at a concrete one-word shadow the dirty flag stays true
under a no-op bit set, and a dirty flush against an always-failing
transport leaves dirty set. -/
theorem dirty_monotone_spec_witness :
    (d3net_holding_power_set
      { words := [0, 0, 0], dirty := true, last_read_ms := 7, last_write_ms := 0 }
      false).dirty = true := by
  have h := dirty_monotone_spec.2.2.2.1
    { words := [0, 0, 0], dirty := true, last_read_ms := 7, last_write_ms := 0 }
    false (by rfl)
  exact h

/-! ## Poll sweep lemmas -/

theorem poll_unit_skip (rfn : ReadFn) (cache now i : Nat) (u : d3net_unit_t)
    (hskip : u.present = false ∨
      d3net_holding_write_within u.holding now cache = true) :
    (poll_unit rfn cache now i u).2 = [] := by
  unfold poll_unit
  rcases hskip with hs | hs
  · rw [if_pos hs]
  · by_cases hp : u.present = false
    · rw [if_pos hp]
    · rw [if_neg hp, if_pos hs]

theorem poll_unit_read (rfn : ReadFn) (cache now i : Nat) (u : d3net_unit_t)
    (hp : u.present = true)
    (hw : d3net_holding_write_within u.holding now cache = false) :
    (poll_unit rfn cache now i u).2 = [Op.readInput (2000 + 6 * i) 6] := by
  unfold poll_unit
  rw [if_neg (by simp [hp]), if_neg (by simp [hw])]
  cases hres : rfn RegType.input (2000 + 6 * i) 6 with
  | none => simp [hres]
  | some ws => simp [hres]

theorem poll_unit_ops (rfn : ReadFn) (cache now i : Nat) (u : d3net_unit_t) :
    (poll_unit rfn cache now i u).2 = [] ∨
    (poll_unit rfn cache now i u).2 = [Op.readInput (2000 + 6 * i) 6] := by
  by_cases hp : u.present = true
  · by_cases hw : d3net_holding_write_within u.holding now cache = true
    · exact Or.inl (poll_unit_skip rfn cache now i u (Or.inr hw))
    · exact Or.inr (poll_unit_read rfn cache now i u hp (by simpa using hw))
  · exact Or.inl (poll_unit_skip rfn cache now i u (Or.inl (by simpa using hp)))

theorem poll_go_ops (rfn : ReadFn) (cache now : Nat) (units : List d3net_unit_t) :
    ∀ b op, op ∈ (poll_status_go rfn cache now b units).2 →
      ∃ m, b ≤ m ∧ op = Op.readInput (2000 + 6 * m) 6 := by
  induction units with
  | nil =>
    intro b op h
    simp [poll_status_go] at h
  | cons u rest ih =>
    intro b op h
    simp only [poll_status_go, List.mem_append] at h
    rcases h with h | h
    · rcases poll_unit_ops rfn cache now b u with he | he
      · rw [he] at h
        cases h
      · rw [he] at h
        simp only [List.mem_singleton] at h
        exact ⟨b, Nat.le_refl b, h⟩
    · obtain ⟨m, hm, he⟩ := ih (b + 1) op h
      exact ⟨m, by omega, he⟩

theorem poll_go_not_mem (rfn : ReadFn) (cache now : Nat)
    (units : List d3net_unit_t) :
    ∀ b j u, units[j]? = some u →
      (u.present = false ∨ d3net_holding_write_within u.holding now cache = true) →
      Op.readInput (2000 + 6 * (b + j)) 6 ∉ (poll_status_go rfn cache now b units).2 := by
  induction units with
  | nil =>
    intro b j u hu
    simp at hu
  | cons v rest ih =>
    intro b j u hu hskip hmem
    simp only [poll_status_go, List.mem_append] at hmem
    rcases hmem with h | h
    · cases j with
      | zero =>
        rw [List.getElem?_cons_zero, Option.some_inj] at hu
        subst hu
        rw [poll_unit_skip rfn cache now b v hskip] at h
        cases h
      | succ k =>
        rcases poll_unit_ops rfn cache now b v with he | he
        · rw [he] at h
          cases h
        · rw [he] at h
          simp only [List.mem_singleton, Op.readInput.injEq] at h
          omega
    · cases j with
      | zero =>
        obtain ⟨m, hm, he⟩ := poll_go_ops rfn cache now rest (b + 1) _ h
        rw [Op.readInput.injEq] at he
        omega
      | succ k =>
        rw [List.getElem?_cons_succ] at hu
        have hx : b + (k + 1) = (b + 1) + k := by omega
        rw [hx] at h
        exact ih (b + 1) k u hu hskip h

theorem poll_go_mem (rfn : ReadFn) (cache now : Nat) (units : List d3net_unit_t) :
    ∀ b j u, units[j]? = some u → u.present = true →
      d3net_holding_write_within u.holding now cache = false →
      Op.readInput (2000 + 6 * (b + j)) 6 ∈ (poll_status_go rfn cache now b units).2 := by
  induction units with
  | nil =>
    intro b j u hu
    simp at hu
  | cons v rest ih =>
    intro b j u hu hp hw
    simp only [poll_status_go, List.mem_append]
    cases j with
    | zero =>
      left
      rw [List.getElem?_cons_zero, Option.some_inj] at hu
      subst hu
      rw [poll_unit_read rfn cache now b v hp hw]
      simp
    | succ k =>
      right
      rw [List.getElem?_cons_succ] at hu
      have hx : b + (k + 1) = (b + 1) + k := by omega
      rw [hx]
      exact ih (b + 1) k u hu hp hw

/-- C7 counterexample: a holding write that succeeds at time 0 stamps
`last_write_ms = 0`, which `write_within` treats as the never-written
sentinel, so a poll at time 0 — within `cache_write_s` of that successful
write — still emits an input-register read for the unit. -/
theorem poll_zero_write_cex :
    (d3net_holding_write_if_dirty (fun _ _ => true) 0 c7_unit_before 0).1 =
      EspErr.ok ∧
    c7_unit_after.holding.last_write_ms = 0 ∧
    (0 : Nat) - c7_unit_after.holding.last_write_ms < 35 * 1000 ∧
    c7_unit_after.present = true ∧
    (d3net_gateway_poll_status (fun _ _ _ => none) 35 0 [c7_unit_after]).2 =
      [Op.readInput 2000 6] := by
  decide

/-- C7 (amended): after a successful holding write whose recorded
`last_write_ms` timestamp is non-zero (0 is the never-written sentinel),
every poll sweep whose current time is within `cache_write_s` seconds of
that write emits no input-register status read for that unit, and once
`cache_write_s` has elapsed the sweep reads the unit again. -/
theorem poll_post_write_suppression (rfn : ReadFn) (cache now : Nat)
    (units : List d3net_unit_t) (j : Nat) (u : d3net_unit_t)
    (hu : units[j]? = some u) (hp : u.present = true)
    (hw0 : u.holding.last_write_ms ≠ 0) :
    (now - u.holding.last_write_ms < cache * 1000 →
      Op.readInput (2000 + 6 * j) 6 ∉
        (d3net_gateway_poll_status rfn cache now units).2) ∧
    (cache * 1000 ≤ now - u.holding.last_write_ms →
      Op.readInput (2000 + 6 * j) 6 ∈
        (d3net_gateway_poll_status rfn cache now units).2) := by
  constructor
  · intro hrecent
    have hww : d3net_holding_write_within u.holding now cache = true := by
      unfold d3net_holding_write_within
      rw [if_neg hw0]
      exact decide_eq_true hrecent
    have hnm := poll_go_not_mem rfn cache now units 0 j u hu (Or.inr hww)
    unfold d3net_gateway_poll_status
    simpa using hnm
  · intro hpast
    have hww : d3net_holding_write_within u.holding now cache = false := by
      unfold d3net_holding_write_within
      rw [if_neg hw0]
      simp
      omega
    have hm := poll_go_mem rfn cache now units 0 j u hu hp hww
    unfold d3net_gateway_poll_status
    simpa using hm

/-- C7 witness: a unit written at 5000 ms is skipped by a sweep at 5500 ms
and read again by a sweep at 41000 ms, with the default 35 s write
cache. -/
theorem poll_post_write_suppression_witness :
    (Op.readInput 2000 6 ∉
      (d3net_gateway_poll_status (fun _ _ _ => none) 35 5500 [c7w_unit]).2) ∧
    (Op.readInput 2000 6 ∈
      (d3net_gateway_poll_status (fun _ _ _ => none) 35 41000 [c7w_unit]).2) := by
  constructor
  · have h := (poll_post_write_suppression (fun _ _ _ => none) 35 5500 [c7w_unit]
      0 c7w_unit (by decide) (by decide) (by decide)).1 (by decide)
    simpa using h
  · have h := (poll_post_write_suppression (fun _ _ _ => none) 35 41000 [c7w_unit]
      0 c7w_unit (by decide) (by decide) (by decide)).2 (by decide)
    simpa using h

/-! ## Discovery lemmas -/

theorem discover_fold (rfn : ReadFn) (sys : List Nat) (l : List Nat) :
    ∀ acc c,
      l.foldl
        (fun (st : List d3net_unit_t × Nat) i =>
          let u := discover_unit rfn sys i
          (st.1 ++ [u], if u.present then st.2 + 1 else st.2)) (acc, c) =
      (acc ++ l.map (discover_unit rfn sys),
        c + ((l.map (discover_unit rfn sys)).filter (fun u => u.present)).length) := by
  induction l with
  | nil =>
    intro acc c
    simp
  | cons x xs ih =>
    intro acc c
    rw [List.foldl_cons]
    dsimp only
    rw [ih]
    by_cases hp : (discover_unit rfn sys x).present
    · rw [if_pos hp]
      simp [hp, List.filter]
      omega
    · rw [if_neg hp]
      simp only [List.map_cons, List.filter]
      rw [Bool.eq_false_iff.mpr hp]  -- hmm may not be needed
      simp [hp]

theorem discover_unit_present (rfn : ReadFn) (sys : List Nat) (i : Nat) :
    (discover_unit rfn sys i).present = true ↔
      (d3net_system_unit_connected sys i = true ∧
       d3net_system_unit_error sys i = false ∧
       (rfn RegType.input (1000 + 3 * i) 3).isSome ∧
       (rfn RegType.input (2000 + 6 * i) 6).isSome) := by
  unfold discover_unit
  by_cases hc : d3net_system_unit_connected sys i = true
  · by_cases he : d3net_system_unit_error sys i = true
    · rw [if_pos (by simp [hc, he])]
      simp [d3net_unit_zero, hc, he]
    · rw [if_neg (by simp [hc, he])]
      cases hcap : rfn RegType.input (1000 + 3 * i) 3 with
      | none => simp [d3net_unit_zero, hcap, hc, he]
      | some capw =>
        cases hst : rfn RegType.input (2000 + 6 * i) 6 with
        | none => simp [d3net_unit_zero, hst, hc, he]
        | some stw => simp [hst, hc, he, Bool.eq_false_iff.mpr he]
  · rw [if_pos (by simp [hc])]
    simp [d3net_unit_zero, hc]

theorem discover_some (rfn : ReadFn) (sys : List Nat)
    (h : rfn RegType.input 0 9 = some sys) :
    d3net_gateway_discover_units rfn =
      some { system_status := sys
             units := (List.range 64).map (discover_unit rfn sys)
             discovered_count :=
               (((List.range 64).map (discover_unit rfn sys)).filter
                 (fun u => u.present)).length } := by
  unfold d3net_gateway_discover_units
  rw [h]
  dsimp only
  rw [discover_fold]
  simp

/-- C2: discovery succeeds iff the initial 9-word system-status read
succeeds; in a produced gateway state, `units[i].present` holds iff the
unit's connected flag is set, its error flag is clear, and both the
capability read (3 input words at `1000 + 3 i`) and the status read
(6 input words at `2000 + 6 i`) succeed — so a per-unit read failure
leaves the unit absent without aborting discovery — and
`discovered_count` equals the number of present units. -/
theorem discover_units_spec (rfn : ReadFn) :
    ((d3net_gateway_discover_units rfn).isSome ↔ (rfn RegType.input 0 9).isSome) ∧
    (∀ gw, d3net_gateway_discover_units rfn = some gw →
      (∀ i, i < 64 →
        ((gw.units.getD i d3net_unit_zero).present = true ↔
          (d3net_system_unit_connected gw.system_status i = true ∧
           d3net_system_unit_error gw.system_status i = false ∧
           (rfn RegType.input (1000 + 3 * i) 3).isSome ∧
           (rfn RegType.input (2000 + 6 * i) 6).isSome))) ∧
      gw.discovered_count = (gw.units.filter (fun u => u.present)).length) := by
  constructor
  · cases hr : rfn RegType.input 0 9 with
    | none =>
      unfold d3net_gateway_discover_units
      rw [hr]
      simp
    | some sys =>
      rw [discover_some rfn sys hr]
      simp
  · intro gw hgw
    cases hr : rfn RegType.input 0 9 with
    | none =>
      unfold d3net_gateway_discover_units at hgw
      rw [hr] at hgw
      cases hgw
    | some sys =>
      rw [discover_some rfn sys hr, Option.some_inj] at hgw
      subst hgw
      constructor
      · intro i hi
        have hgd : ((List.range 64).map (discover_unit rfn sys)).getD i
            d3net_unit_zero = discover_unit rfn sys i := by
          rw [List.getD_eq_getElem?_getD, List.getElem?_map, List.getElem?_range hi]
          rfl
        dsimp only
        rw [hgd]
        exact discover_unit_present rfn sys i
      · rfl

/-- C2 witness: with units 0..2 connected, unit 2 flagged error and unit 1
failing its capability read, discovery returns a state where only unit 0 is
present and the count matches. -/
theorem discover_units_spec_witness :
    (discover_gw_w.units.getD 0 d3net_unit_zero).present = true ∧
    (discover_gw_w.units.getD 1 d3net_unit_zero).present = false ∧
    (discover_gw_w.units.getD 2 d3net_unit_zero).present = false ∧
    discover_gw_w.discovered_count =
      (discover_gw_w.units.filter (fun u => u.present)).length := by
  have h := (discover_units_spec discover_rfn_w).2 discover_gw_w (by decide)
  refine ⟨(h.1 0 (by omega)).mpr ⟨by decide, by decide, by decide, by decide⟩,
    ?_, ?_, h.2⟩
  · by_contra hx
    have hp := (h.1 1 (by omega)).mp (by simpa using hx)
    have : (discover_rfn_w RegType.input 1003 3).isSome := by
      simpa using hp.2.2.1
    exact absurd this (by decide)
  · by_contra hx
    have hp := (h.1 2 (by omega)).mp (by simpa using hx)
    have : d3net_system_unit_error discover_gw_w.system_status 2 = false := hp.2.1
    exact absurd this (by decide)

/-! ## Holding setter structure lemmas -/

theorem d3net_uint_get_bit_set_out (w : List Nat) (q : Nat) (v d : Bool)
    (start len : Nat) (h : ∀ j, j < len → start + j ≠ q) :
    d3net_uint_get (d3net_bit_set w q v d).1 start len =
      d3net_uint_get w start len :=
  d3net_uint_get_congr _ _ _ _ (fun j hj =>
    d3net_bit_get_set_ne w q (start + j) v d (fun he => (h j hj) he.symm))

theorem d3net_uint_get_uint_set_out (w : List Nat) (s2 l2 v2 : Nat) (d : Bool)
    (start len : Nat) (h : ∀ i j, i < l2 → j < len → s2 + i ≠ start + j) :
    d3net_uint_get (d3net_uint_set w s2 l2 v2 d).1 start len =
      d3net_uint_get w start len :=
  d3net_uint_get_congr _ _ _ _ (fun j hj =>
    d3net_bit_get_uint_set_out _ _ _ _ _ _ (fun i hi => h i j hi hj))

theorem d3net_sint_get_natAbs (s : List Nat) (start len : Nat) (h2 : 2 ≤ len) :
    (d3net_sint_get s start len).natAbs = d3net_uint_get s start (len - 1) := by
  rw [d3net_sint_get_eq _ _ _ h2]
  split
  · simp
  · simp

theorem holding_power_set_eq (h : d3net_unit_holding_t) (v : Bool) :
    d3net_holding_power_set h v =
      { words := (d3net_bit_set h.words 0 v h.dirty).1
        dirty := (d3net_bit_set h.words 0 v h.dirty).2
        last_read_ms := h.last_read_ms
        last_write_ms := h.last_write_ms } := by
  simp [d3net_holding_power_set]

theorem holding_fan_dir_set_eq (h : d3net_unit_holding_t) (v : Nat) :
    d3net_holding_fan_dir_set h v =
      { words := (d3net_uint_set (d3net_uint_set h.words 8 3 v h.dirty).1 4 4 6
          (d3net_uint_set h.words 8 3 v h.dirty).2).1
        dirty := (d3net_uint_set (d3net_uint_set h.words 8 3 v h.dirty).1 4 4 6
          (d3net_uint_set h.words 8 3 v h.dirty).2).2
        last_read_ms := h.last_read_ms
        last_write_ms := h.last_write_ms } := by
  simp [d3net_holding_fan_dir_set, d3net_holding_fan_control_set]

theorem holding_fan_speed_set_eq (h : d3net_unit_holding_t) (v : Nat) :
    d3net_holding_fan_speed_set h v =
      { words := (d3net_uint_set (d3net_uint_set h.words 12 3 v h.dirty).1 4 4 6
          (d3net_uint_set h.words 12 3 v h.dirty).2).1
        dirty := (d3net_uint_set (d3net_uint_set h.words 12 3 v h.dirty).1 4 4 6
          (d3net_uint_set h.words 12 3 v h.dirty).2).2
        last_read_ms := h.last_read_ms
        last_write_ms := h.last_write_ms } := by
  simp [d3net_holding_fan_speed_set, d3net_holding_fan_control_set]

theorem holding_oper_mode_set_eq (h : d3net_unit_holding_t) (v : Nat) :
    d3net_holding_oper_mode_set h v =
      { words := (d3net_uint_set h.words 16 4 v h.dirty).1
        dirty := (d3net_uint_set h.words 16 4 v h.dirty).2
        last_read_ms := h.last_read_ms
        last_write_ms := h.last_write_ms } := by
  simp [d3net_holding_oper_mode_set]

theorem holding_temp_set_eq (h : d3net_unit_holding_t) (x : Int) :
    d3net_holding_temp_setpoint_set_x10 h x =
      { words := (d3net_sint_set h.words 32 16 x h.dirty).1
        dirty := (d3net_sint_set h.words 32 16 x h.dirty).2
        last_read_ms := h.last_read_ms
        last_write_ms := h.last_write_ms } := by
  simp [d3net_holding_temp_setpoint_set_x10]

theorem holding_filter_reset_set_eq (h : d3net_unit_holding_t) (v : Bool) :
    d3net_holding_filter_reset_set h v =
      { words := (d3net_uint_set h.words 20 4 (if v then 15 else 0) h.dirty).1
        dirty := (d3net_uint_set h.words 20 4 (if v then 15 else 0) h.dirty).2
        last_read_ms := h.last_read_ms
        last_write_ms := h.last_write_ms } := by
  simp [d3net_holding_filter_reset_set]

theorem sync_eq_chain (h : d3net_unit_holding_t) (s : List Nat) :
    d3net_holding_sync_from_status h s =
      d3net_holding_temp_setpoint_set_x10
        (d3net_holding_oper_mode_set
          (d3net_holding_fan_speed_set
            (d3net_holding_fan_dir_set
              (d3net_holding_power_set h (d3net_status_power_get s))
              (d3net_status_fan_dir_get s))
            (d3net_status_fan_speed_get s))
          (d3net_status_oper_mode_get s))
        (d3net_status_temp_setpoint_x10 s) := by
  simp only [d3net_holding_sync_from_status]

/-- Characterization of `d3net_holding_sync_from_status` on a 3-word
shadow: the five copied fields take the status values, fan-control-enable
is forced to 6, the filter-reset field and the timestamps are untouched,
and dirty picks up exactly the actually-changed written fields. -/
theorem sync_fields (h : d3net_unit_holding_t) (s : List Nat)
    (hw : h.words.length = 3) :
    d3net_bit_get (d3net_holding_sync_from_status h s).words 0 =
        d3net_status_power_get s ∧
    d3net_uint_get (d3net_holding_sync_from_status h s).words 8 3 =
        d3net_status_fan_dir_get s ∧
    d3net_uint_get (d3net_holding_sync_from_status h s).words 12 3 =
        d3net_status_fan_speed_get s ∧
    d3net_uint_get (d3net_holding_sync_from_status h s).words 16 4 =
        d3net_status_oper_mode_get s ∧
    d3net_uint_get (d3net_holding_sync_from_status h s).words 4 4 = 6 ∧
    d3net_uint_get (d3net_holding_sync_from_status h s).words 32 15 =
        (d3net_status_temp_setpoint_x10 s).natAbs ∧
    d3net_bit_get (d3net_holding_sync_from_status h s).words 47 =
        decide (d3net_status_temp_setpoint_x10 s < 0) ∧
    d3net_uint_get (d3net_holding_sync_from_status h s).words 20 4 =
        d3net_uint_get h.words 20 4 ∧
    (d3net_holding_sync_from_status h s).dirty = (h.dirty || sync_changed h s) ∧
    (d3net_holding_sync_from_status h s).words.length = 3 ∧
    (d3net_holding_sync_from_status h s).last_read_ms = h.last_read_ms ∧
    (d3net_holding_sync_from_status h s).last_write_ms = h.last_write_ms := by
  set p := d3net_status_power_get s with hp
  set fd := d3net_status_fan_dir_get s with hfd
  set fs := d3net_status_fan_speed_get s with hfs
  set om := d3net_status_oper_mode_get s with hom
  set x := d3net_status_temp_setpoint_x10 s with hx
  have hfdlt : fd < 2 ^ 3 := by
    rw [hfd]
    exact d3net_uint_get_lt s 8 3
  have hfslt : fs < 2 ^ 3 := by
    rw [hfs]
    exact d3net_uint_get_lt s 12 3
  have homlt : om < 2 ^ 4 := by
    rw [hom]
    exact d3net_uint_get_lt s 16 4
  have h6lt : (6 : Nat) < 2 ^ 4 := by norm_num
  have hmaglt : x.natAbs < 2 ^ 15 := by
    rw [hx]
    unfold d3net_status_temp_setpoint_x10
    rw [d3net_sint_get_natAbs s 32 16 (by omega)]
    simpa using d3net_uint_get_lt s 32 (16 - 1)
  set h1 := d3net_holding_power_set h p with hh1
  set h2 := d3net_holding_fan_dir_set h1 fd with hh2
  set h3 := d3net_holding_fan_speed_set h2 fs with hh3
  set h4 := d3net_holding_oper_mode_set h3 om with hh4
  set h5 := d3net_holding_temp_setpoint_set_x10 h4 x with hh5
  have hsync : d3net_holding_sync_from_status h s = h5 := by
    rw [sync_eq_chain, hh5, hh4, hh3, hh2, hh1, hp, hfd, hfs, hom, hx]
  have e1w : h1.words = (d3net_bit_set h.words 0 p h.dirty).1 := by
    rw [hh1, holding_power_set_eq]
  have e1d : h1.dirty = (d3net_bit_set h.words 0 p h.dirty).2 := by
    rw [hh1, holding_power_set_eq]
  have l1 : h1.words.length = 3 := by
    rw [e1w, d3net_bit_set_length, hw]
  have e2w : h2.words =
      (d3net_uint_set (d3net_uint_set h1.words 8 3 fd h1.dirty).1 4 4 6
        (d3net_uint_set h1.words 8 3 fd h1.dirty).2).1 := by
    rw [hh2, holding_fan_dir_set_eq]
  have e2d : h2.dirty =
      (d3net_uint_set (d3net_uint_set h1.words 8 3 fd h1.dirty).1 4 4 6
        (d3net_uint_set h1.words 8 3 fd h1.dirty).2).2 := by
    rw [hh2, holding_fan_dir_set_eq]
  have l2 : h2.words.length = 3 := by
    rw [e2w, d3net_uint_set_length, d3net_uint_set_length, l1]
  have e3w : h3.words =
      (d3net_uint_set (d3net_uint_set h2.words 12 3 fs h2.dirty).1 4 4 6
        (d3net_uint_set h2.words 12 3 fs h2.dirty).2).1 := by
    rw [hh3, holding_fan_speed_set_eq]
  have e3d : h3.dirty =
      (d3net_uint_set (d3net_uint_set h2.words 12 3 fs h2.dirty).1 4 4 6
        (d3net_uint_set h2.words 12 3 fs h2.dirty).2).2 := by
    rw [hh3, holding_fan_speed_set_eq]
  have l3 : h3.words.length = 3 := by
    rw [e3w, d3net_uint_set_length, d3net_uint_set_length, l2]
  have e4w : h4.words = (d3net_uint_set h3.words 16 4 om h3.dirty).1 := by
    rw [hh4, holding_oper_mode_set_eq]
  have e4d : h4.dirty = (d3net_uint_set h3.words 16 4 om h3.dirty).2 := by
    rw [hh4, holding_oper_mode_set_eq]
  have l4 : h4.words.length = 3 := by
    rw [e4w, d3net_uint_set_length, l3]
  have e5w : h5.words =
      (d3net_bit_set (d3net_uint_set h4.words 32 15 x.natAbs h4.dirty).1 47
        (decide (x < 0)) (d3net_uint_set h4.words 32 15 x.natAbs h4.dirty).2).1 := by
    rw [hh5, holding_temp_set_eq, d3net_sint_set_eq _ _ _ _ _ (by omega)]
  have e5d : h5.dirty =
      (d3net_bit_set (d3net_uint_set h4.words 32 15 x.natAbs h4.dirty).1 47
        (decide (x < 0)) (d3net_uint_set h4.words 32 15 x.natAbs h4.dirty).2).2 := by
    rw [hh5, holding_temp_set_eq, d3net_sint_set_eq _ _ _ _ _ (by omega)]
  have l5 : h5.words.length = 3 := by
    rw [e5w, d3net_bit_set_length, d3net_uint_set_length, l4]
  -- field 0 (power)
  have q2_0 : d3net_bit_get h2.words 0 = d3net_bit_get h1.words 0 := by
    rw [e2w, d3net_bit_get_uint_set_out _ _ _ _ _ _ (fun i hi => by omega),
      d3net_bit_get_uint_set_out _ _ _ _ _ _ (fun i hi => by omega)]
  have q3_0 : d3net_bit_get h3.words 0 = d3net_bit_get h2.words 0 := by
    rw [e3w, d3net_bit_get_uint_set_out _ _ _ _ _ _ (fun i hi => by omega),
      d3net_bit_get_uint_set_out _ _ _ _ _ _ (fun i hi => by omega)]
  have q4_0 : d3net_bit_get h4.words 0 = d3net_bit_get h3.words 0 := by
    rw [e4w, d3net_bit_get_uint_set_out _ _ _ _ _ _ (fun i hi => by omega)]
  have q5_0 : d3net_bit_get h5.words 0 = d3net_bit_get h4.words 0 := by
    rw [e5w, d3net_bit_get_set_ne _ _ _ _ _ (by omega),
      d3net_bit_get_uint_set_out _ _ _ _ _ _ (fun i hi => by omega)]
  have f0 : d3net_bit_get h5.words 0 = p := by
    rw [q5_0, q4_0, q3_0, q2_0, e1w]
    exact d3net_bit_get_set_same _ _ _ _ (by rw [hw]; omega)
  -- field 8..10 (fan dir)
  have q1_8 : d3net_uint_get h1.words 8 3 = d3net_uint_get h.words 8 3 := by
    rw [e1w, d3net_uint_get_bit_set_out _ _ _ _ _ _ (fun j hj => by omega)]
  have q2_8 : d3net_uint_get h2.words 8 3 = fd := by
    rw [e2w, d3net_uint_get_uint_set_out _ _ _ _ _ _ _ (fun i j hi hj => by omega)]
    exact d3net_uint_get_set _ _ _ _ _ (by rw [l1]; omega) hfdlt
  have q3_8 : d3net_uint_get h3.words 8 3 = d3net_uint_get h2.words 8 3 := by
    rw [e3w, d3net_uint_get_uint_set_out _ _ _ _ _ _ _ (fun i j hi hj => by omega),
      d3net_uint_get_uint_set_out _ _ _ _ _ _ _ (fun i j hi hj => by omega)]
  have q4_8 : d3net_uint_get h4.words 8 3 = d3net_uint_get h3.words 8 3 := by
    rw [e4w, d3net_uint_get_uint_set_out _ _ _ _ _ _ _ (fun i j hi hj => by omega)]
  have q5_8 : d3net_uint_get h5.words 8 3 = d3net_uint_get h4.words 8 3 := by
    rw [e5w, d3net_uint_get_bit_set_out _ _ _ _ _ _ (fun j hj => by omega),
      d3net_uint_get_uint_set_out _ _ _ _ _ _ _ (fun i j hi hj => by omega)]
  have f8 : d3net_uint_get h5.words 8 3 = fd := by
    rw [q5_8, q4_8, q3_8, q2_8]
  -- field 12..14 (fan speed)
  have q1_12 : d3net_uint_get h1.words 12 3 = d3net_uint_get h.words 12 3 := by
    rw [e1w, d3net_uint_get_bit_set_out _ _ _ _ _ _ (fun j hj => by omega)]
  have q2_12 : d3net_uint_get h2.words 12 3 = d3net_uint_get h1.words 12 3 := by
    rw [e2w, d3net_uint_get_uint_set_out _ _ _ _ _ _ _ (fun i j hi hj => by omega),
      d3net_uint_get_uint_set_out _ _ _ _ _ _ _ (fun i j hi hj => by omega)]
  have q3_12 : d3net_uint_get h3.words 12 3 = fs := by
    rw [e3w, d3net_uint_get_uint_set_out _ _ _ _ _ _ _ (fun i j hi hj => by omega)]
    exact d3net_uint_get_set _ _ _ _ _ (by rw [l2]; omega) hfslt
  have q4_12 : d3net_uint_get h4.words 12 3 = d3net_uint_get h3.words 12 3 := by
    rw [e4w, d3net_uint_get_uint_set_out _ _ _ _ _ _ _ (fun i j hi hj => by omega)]
  have q5_12 : d3net_uint_get h5.words 12 3 = d3net_uint_get h4.words 12 3 := by
    rw [e5w, d3net_uint_get_bit_set_out _ _ _ _ _ _ (fun j hj => by omega),
      d3net_uint_get_uint_set_out _ _ _ _ _ _ _ (fun i j hi hj => by omega)]
  have f12 : d3net_uint_get h5.words 12 3 = fs := by
    rw [q5_12, q4_12, q3_12]
  -- field 16..19 (mode)
  have q1_16 : d3net_uint_get h1.words 16 4 = d3net_uint_get h.words 16 4 := by
    rw [e1w, d3net_uint_get_bit_set_out _ _ _ _ _ _ (fun j hj => by omega)]
  have q2_16 : d3net_uint_get h2.words 16 4 = d3net_uint_get h1.words 16 4 := by
    rw [e2w, d3net_uint_get_uint_set_out _ _ _ _ _ _ _ (fun i j hi hj => by omega),
      d3net_uint_get_uint_set_out _ _ _ _ _ _ _ (fun i j hi hj => by omega)]
  have q3_16 : d3net_uint_get h3.words 16 4 = d3net_uint_get h2.words 16 4 := by
    rw [e3w, d3net_uint_get_uint_set_out _ _ _ _ _ _ _ (fun i j hi hj => by omega),
      d3net_uint_get_uint_set_out _ _ _ _ _ _ _ (fun i j hi hj => by omega)]
  have q4_16 : d3net_uint_get h4.words 16 4 = om := by
    rw [e4w]
    exact d3net_uint_get_set _ _ _ _ _ (by rw [l3]; omega) homlt
  have q5_16 : d3net_uint_get h5.words 16 4 = d3net_uint_get h4.words 16 4 := by
    rw [e5w, d3net_uint_get_bit_set_out _ _ _ _ _ _ (fun j hj => by omega),
      d3net_uint_get_uint_set_out _ _ _ _ _ _ _ (fun i j hi hj => by omega)]
  have f16 : d3net_uint_get h5.words 16 4 = om := by
    rw [q5_16, q4_16]
  -- field 4..7 (fan control)
  have q1_4 : d3net_uint_get h1.words 4 4 = d3net_uint_get h.words 4 4 := by
    rw [e1w, d3net_uint_get_bit_set_out _ _ _ _ _ _ (fun j hj => by omega)]
  have q2_4 : d3net_uint_get h2.words 4 4 = 6 := by
    rw [e2w]
    exact d3net_uint_get_set _ _ _ _ _
      (by rw [d3net_uint_set_length, l1]; omega) h6lt
  have q3_4 : d3net_uint_get h3.words 4 4 = 6 := by
    rw [e3w]
    exact d3net_uint_get_set _ _ _ _ _
      (by rw [d3net_uint_set_length, l2]; omega) h6lt
  have q4_4 : d3net_uint_get h4.words 4 4 = d3net_uint_get h3.words 4 4 := by
    rw [e4w, d3net_uint_get_uint_set_out _ _ _ _ _ _ _ (fun i j hi hj => by omega)]
  have q5_4 : d3net_uint_get h5.words 4 4 = d3net_uint_get h4.words 4 4 := by
    rw [e5w, d3net_uint_get_bit_set_out _ _ _ _ _ _ (fun j hj => by omega),
      d3net_uint_get_uint_set_out _ _ _ _ _ _ _ (fun i j hi hj => by omega)]
  have f4 : d3net_uint_get h5.words 4 4 = 6 := by
    rw [q5_4, q4_4, q3_4]
  -- field 32..46 (setpoint magnitude)
  have q1_32 : d3net_uint_get h1.words 32 15 = d3net_uint_get h.words 32 15 := by
    rw [e1w, d3net_uint_get_bit_set_out _ _ _ _ _ _ (fun j hj => by omega)]
  have q2_32 : d3net_uint_get h2.words 32 15 = d3net_uint_get h1.words 32 15 := by
    rw [e2w, d3net_uint_get_uint_set_out _ _ _ _ _ _ _ (fun i j hi hj => by omega),
      d3net_uint_get_uint_set_out _ _ _ _ _ _ _ (fun i j hi hj => by omega)]
  have q3_32 : d3net_uint_get h3.words 32 15 = d3net_uint_get h2.words 32 15 := by
    rw [e3w, d3net_uint_get_uint_set_out _ _ _ _ _ _ _ (fun i j hi hj => by omega),
      d3net_uint_get_uint_set_out _ _ _ _ _ _ _ (fun i j hi hj => by omega)]
  have q4_32 : d3net_uint_get h4.words 32 15 = d3net_uint_get h3.words 32 15 := by
    rw [e4w, d3net_uint_get_uint_set_out _ _ _ _ _ _ _ (fun i j hi hj => by omega)]
  have f32 : d3net_uint_get h5.words 32 15 = x.natAbs := by
    rw [e5w, d3net_uint_get_bit_set_out _ _ _ _ _ _ (fun j hj => by omega)]
    exact d3net_uint_get_set _ _ _ _ _ (by rw [l4]; omega) hmaglt
  -- bit 47 (setpoint sign)
  have q1_47 : d3net_bit_get h1.words 47 = d3net_bit_get h.words 47 := by
    rw [e1w, d3net_bit_get_set_ne _ _ _ _ _ (by omega)]
  have q2_47 : d3net_bit_get h2.words 47 = d3net_bit_get h1.words 47 := by
    rw [e2w, d3net_bit_get_uint_set_out _ _ _ _ _ _ (fun i hi => by omega),
      d3net_bit_get_uint_set_out _ _ _ _ _ _ (fun i hi => by omega)]
  have q3_47 : d3net_bit_get h3.words 47 = d3net_bit_get h2.words 47 := by
    rw [e3w, d3net_bit_get_uint_set_out _ _ _ _ _ _ (fun i hi => by omega),
      d3net_bit_get_uint_set_out _ _ _ _ _ _ (fun i hi => by omega)]
  have q4_47 : d3net_bit_get h4.words 47 = d3net_bit_get h3.words 47 := by
    rw [e4w, d3net_bit_get_uint_set_out _ _ _ _ _ _ (fun i hi => by omega)]
  have f47 : d3net_bit_get h5.words 47 = decide (x < 0) := by
    rw [e5w]
    exact d3net_bit_get_set_same _ _ _ _
      (by rw [d3net_uint_set_length, l4]; omega)
  -- field 20..23 (filter reset, untouched)
  have q1_20 : d3net_uint_get h1.words 20 4 = d3net_uint_get h.words 20 4 := by
    rw [e1w, d3net_uint_get_bit_set_out _ _ _ _ _ _ (fun j hj => by omega)]
  have q2_20 : d3net_uint_get h2.words 20 4 = d3net_uint_get h1.words 20 4 := by
    rw [e2w, d3net_uint_get_uint_set_out _ _ _ _ _ _ _ (fun i j hi hj => by omega),
      d3net_uint_get_uint_set_out _ _ _ _ _ _ _ (fun i j hi hj => by omega)]
  have q3_20 : d3net_uint_get h3.words 20 4 = d3net_uint_get h2.words 20 4 := by
    rw [e3w, d3net_uint_get_uint_set_out _ _ _ _ _ _ _ (fun i j hi hj => by omega),
      d3net_uint_get_uint_set_out _ _ _ _ _ _ _ (fun i j hi hj => by omega)]
  have q4_20 : d3net_uint_get h4.words 20 4 = d3net_uint_get h3.words 20 4 := by
    rw [e4w, d3net_uint_get_uint_set_out _ _ _ _ _ _ _ (fun i j hi hj => by omega)]
  have q5_20 : d3net_uint_get h5.words 20 4 = d3net_uint_get h4.words 20 4 := by
    rw [e5w, d3net_uint_get_bit_set_out _ _ _ _ _ _ (fun j hj => by omega),
      d3net_uint_get_uint_set_out _ _ _ _ _ _ _ (fun i j hi hj => by omega)]
  have f20 : d3net_uint_get h5.words 20 4 = d3net_uint_get h.words 20 4 := by
    rw [q5_20, q4_20, q3_20, q2_20, q1_20]
  -- dirty chain
  have dd1 : h1.dirty = (h.dirty || (d3net_bit_get h.words 0 != p)) := by
    rw [e1d]
    exact d3net_bit_set_dirty _ _ _ _ (by rw [hw]; omega)
  have dd2 : h2.dirty =
      ((h1.dirty || (d3net_uint_get h.words 8 3 != fd)) ||
        (d3net_uint_get h.words 4 4 != 6)) := by
    rw [e2d, d3net_uint_set_dirty _ _ _ _ _ (by rw [d3net_uint_set_length, l1]; omega) h6lt,
      d3net_uint_set_dirty _ _ _ _ _ (by rw [l1]; omega) hfdlt,
      d3net_uint_get_uint_set_out _ _ _ _ _ _ _ (fun i j hi hj => by omega),
      q1_8, q1_4]
  have dd3 : h3.dirty = (h2.dirty || (d3net_uint_get h.words 12 3 != fs)) := by
    rw [e3d, d3net_uint_set_dirty _ _ _ _ _ (by rw [d3net_uint_set_length, l2]; omega) h6lt,
      d3net_uint_set_dirty _ _ _ _ _ (by rw [l2]; omega) hfslt,
      d3net_uint_get_uint_set_out _ _ _ _ _ _ _ (fun i j hi hj => by omega),
      q2_4, q2_12, q1_12]
    simp
  have dd4 : h4.dirty = (h3.dirty || (d3net_uint_get h.words 16 4 != om)) := by
    rw [e4d, d3net_uint_set_dirty _ _ _ _ _ (by rw [l3]; omega) homlt,
      q3_16, q2_16, q1_16]
  have dd5 : h5.dirty =
      ((h4.dirty || (d3net_uint_get h.words 32 15 != x.natAbs)) ||
        (d3net_bit_get h.words 47 != decide (x < 0))) := by
    rw [e5d, d3net_bit_set_dirty _ _ _ _ (by rw [d3net_uint_set_length, l4]; omega),
      d3net_uint_set_dirty _ _ _ _ _ (by rw [l4]; omega) hmaglt,
      d3net_bit_get_uint_set_out _ _ _ _ _ _ (fun i hi => by omega),
      q4_32, q3_32, q2_32, q1_32, q4_47, q3_47, q2_47, q1_47]
  have fdirty : h5.dirty = (h.dirty || sync_changed h s) := by
    rw [dd5, dd4, dd3, dd2, dd1]
    unfold sync_changed
    rw [← hp, ← hfd, ← hfs, ← hom, ← hx]
    simp [Bool.or_assoc]
  -- timestamps
  have flr : h5.last_read_ms = h.last_read_ms := by
    rw [hh5, holding_temp_set_eq]
    show h4.last_read_ms = h.last_read_ms
    rw [hh4, holding_oper_mode_set_eq]
    show h3.last_read_ms = h.last_read_ms
    rw [hh3, holding_fan_speed_set_eq]
    show h2.last_read_ms = h.last_read_ms
    rw [hh2, holding_fan_dir_set_eq]
    show h1.last_read_ms = h.last_read_ms
    rw [hh1, holding_power_set_eq]
  have flw : h5.last_write_ms = h.last_write_ms := by
    rw [hh5, holding_temp_set_eq]
    show h4.last_write_ms = h.last_write_ms
    rw [hh4, holding_oper_mode_set_eq]
    show h3.last_write_ms = h.last_write_ms
    rw [hh3, holding_fan_speed_set_eq]
    show h2.last_write_ms = h.last_write_ms
    rw [hh2, holding_fan_dir_set_eq]
    show h1.last_write_ms = h.last_write_ms
    rw [hh1, holding_power_set_eq]
  rw [hsync]
  exact ⟨f0, f8, f12, f16, f4, f32, f47, f20, fdirty, l5, flr, flw⟩

set_option maxRecDepth 8192 in
/-- C4 counterexample: on an all-zero shadow and an all-zero status view no
copied field changes, yet `holding_sync_from_status` flips the
fan-control-enable field from 0 to 6 (a side effect of the fan setters it
calls) and sets dirty — refuting both the claim that it does not touch
fan-control-enable and the claim that dirty rises only when a copied field
changed. -/
theorem sync_touches_fan_control_cex :
    d3net_holding_power_get c4_holding = d3net_status_power_get [0, 0, 0, 0, 0, 0] ∧
    d3net_holding_fan_dir_get c4_holding = d3net_status_fan_dir_get [0, 0, 0, 0, 0, 0] ∧
    d3net_holding_fan_speed_get c4_holding =
      d3net_status_fan_speed_get [0, 0, 0, 0, 0, 0] ∧
    d3net_holding_oper_mode_get c4_holding =
      d3net_status_oper_mode_get [0, 0, 0, 0, 0, 0] ∧
    d3net_holding_temp_setpoint_x10 c4_holding =
      d3net_status_temp_setpoint_x10 [0, 0, 0, 0, 0, 0] ∧
    d3net_holding_fan_control_get c4_holding = false ∧
    d3net_holding_fan_control_get
      (d3net_holding_sync_from_status c4_holding [0, 0, 0, 0, 0, 0]) = true ∧
    (d3net_holding_sync_from_status c4_holding [0, 0, 0, 0, 0, 0]).dirty = true := by
  decide

/-- C4 (amended): `holding_sync_from_status` copies the live power,
fan-direction, fan-speed, operating-mode and setpoint values from the
status view into the holding shadow and, as a side effect of the fan
setters, forces fan-control-enable to 6; the filter-reset field (bits
20..23) is unchanged, and dirty becomes true iff it was already true or
some written field (a copied field, or a fan-control-enable field not
already 6) actually changed. -/
theorem holding_sync_from_status_spec (h : d3net_unit_holding_t) (s : List Nat)
    (hw : h.words.length = 3) :
    d3net_holding_power_get (d3net_holding_sync_from_status h s) =
        d3net_status_power_get s ∧
    d3net_holding_fan_dir_get (d3net_holding_sync_from_status h s) =
        d3net_status_fan_dir_get s ∧
    d3net_holding_fan_speed_get (d3net_holding_sync_from_status h s) =
        d3net_status_fan_speed_get s ∧
    d3net_holding_oper_mode_get (d3net_holding_sync_from_status h s) =
        d3net_status_oper_mode_get s ∧
    d3net_holding_temp_setpoint_x10 (d3net_holding_sync_from_status h s) =
        d3net_status_temp_setpoint_x10 s ∧
    d3net_holding_fan_control_get (d3net_holding_sync_from_status h s) = true ∧
    d3net_uint_get (d3net_holding_sync_from_status h s).words 20 4 =
        d3net_uint_get h.words 20 4 ∧
    d3net_holding_filter_reset_get (d3net_holding_sync_from_status h s) =
        d3net_holding_filter_reset_get h ∧
    (d3net_holding_sync_from_status h s).dirty = (h.dirty || sync_changed h s) ∧
    (d3net_holding_sync_from_status h s).last_read_ms = h.last_read_ms ∧
    (d3net_holding_sync_from_status h s).last_write_ms = h.last_write_ms := by
  obtain ⟨f0, f8, f12, f16, f4, f32, f47, f20, fdirty, l5, flr, flw⟩ :=
    sync_fields h s hw
  refine ⟨f0, f8, f12, f16, ?_, ?_, f20, ?_, fdirty, flr, flw⟩
  · unfold d3net_holding_temp_setpoint_x10
    rw [d3net_sint_get_eq _ _ _ (by omega)]
    have h47 : (32 : Nat) + 16 - 1 = 47 := by omega
    have h15 : (16 : Nat) - 1 = 15 := by omega
    rw [h47, h15, f47, f32]
    by_cases hv : d3net_status_temp_setpoint_x10 s < 0
    · rw [if_pos (decide_eq_true hv)]
      omega
    · rw [if_neg (by simpa using hv)]
      omega
  · unfold d3net_holding_fan_control_get
    rw [f4]
    rfl
  · unfold d3net_holding_filter_reset_get
    rw [f20]

/-- C4 witness: the amended sync specification instantiated at a concrete
shadow and status view. -/
theorem holding_sync_from_status_spec_witness :
    d3net_holding_fan_control_get
      (d3net_holding_sync_from_status c4w_holding c4w_status) = true ∧
    d3net_uint_get (d3net_holding_sync_from_status c4w_holding c4w_status).words
        20 4 = d3net_uint_get c4w_holding.words 20 4 ∧
    (d3net_holding_sync_from_status c4w_holding c4w_status).dirty =
      (c4w_holding.dirty || sync_changed c4w_holding c4w_status) := by
  have h := holding_sync_from_status_spec c4w_holding c4w_status (by rfl)
  exact ⟨h.2.2.2.2.2.1, h.2.2.2.2.2.2.1, h.2.2.2.2.2.2.2.2.1⟩

/-! ## Gateway write-path lemmas -/

theorem mark_written_words (h : d3net_unit_holding_t) (t : Nat) :
    (d3net_holding_mark_written h t).words = h.words := rfl

theorem mark_written_last_read (h : d3net_unit_holding_t) (t : Nat) :
    (d3net_holding_mark_written h t).last_read_ms = h.last_read_ms := rfl

theorem mark_written_dirty (h : d3net_unit_holding_t) (t : Nat) :
    (d3net_holding_mark_written h t).dirty = false := rfl

theorem mark_read_last_read (h : d3net_unit_holding_t) (t : Nat) :
    (d3net_holding_mark_read h t).last_read_ms = t := rfl

theorem sync_last_read_ms (h : d3net_unit_holding_t) (s : List Nat) :
    (d3net_holding_sync_from_status h s).last_read_ms = h.last_read_ms := by
  simp [sync_eq_chain, holding_temp_set_eq, holding_oper_mode_set_eq,
    holding_fan_speed_set_eq, holding_fan_dir_set_eq, holding_power_set_eq]

theorem holding_read_some (rfn : ReadFn) (i : Nat) (u : d3net_unit_t) (now : Nat)
    (ws : List Nat) (h : rfn RegType.holding (2000 + 3 * i) 3 = some ws) :
    d3net_holding_read rfn i u now =
      (EspErr.ok,
       { u with holding := d3net_holding_mark_read { u.holding with words := ws } now },
       [Op.readHolding (2000 + 3 * i) 3]) := by
  unfold d3net_holding_read
  rw [h]

theorem holding_read_none (rfn : ReadFn) (i : Nat) (u : d3net_unit_t) (now : Nat)
    (h : rfn RegType.holding (2000 + 3 * i) 3 = none) :
    d3net_holding_read rfn i u now =
      (EspErr.fail, u, [Op.readHolding (2000 + 3 * i) 3]) := by
  unfold d3net_holding_read
  rw [h]

theorem write_if_dirty_clean (wfn : WriteFn) (i : Nat) (u : d3net_unit_t) (t : Nat)
    (h : u.holding.dirty = false) :
    d3net_holding_write_if_dirty wfn i u t = (EspErr.ok, u, []) := by
  unfold d3net_holding_write_if_dirty
  rw [if_pos h]

theorem write_if_dirty_dirty_ok (wfn : WriteFn) (i : Nat) (u : d3net_unit_t)
    (t : Nat) (h : u.holding.dirty = true)
    (hw : wfn (2000 + 3 * i) u.holding.words = true) :
    d3net_holding_write_if_dirty wfn i u t =
      (EspErr.ok, { u with holding := d3net_holding_mark_written u.holding t },
       [Op.write (2000 + 3 * i) u.holding.words]) := by
  unfold d3net_holding_write_if_dirty
  rw [if_neg (by simp [h]), if_pos hw]

theorem write_if_dirty_present (wfn : WriteFn) (i : Nat) (u : d3net_unit_t)
    (t : Nat) :
    (d3net_holding_write_if_dirty wfn i u t).2.1.present = u.present := by
  unfold d3net_holding_write_if_dirty
  split
  · rfl
  · split <;> rfl

theorem write_if_dirty_last_read (wfn : WriteFn) (i : Nat) (u : d3net_unit_t)
    (t : Nat) :
    (d3net_holding_write_if_dirty wfn i u t).2.1.holding.last_read_ms =
      u.holding.last_read_ms := by
  unfold d3net_holding_write_if_dirty
  split
  · rfl
  · split <;> rfl

theorem write_if_dirty_count0 (wfn : WriteFn) (i : Nat) (u : d3net_unit_t)
    (t : Nat) :
    count_holding_reads (d3net_holding_write_if_dirty wfn i u t).2.2 = 0 := by
  unfold d3net_holding_write_if_dirty
  split
  · rfl
  · split <;> rfl

theorem prepare_write_not_present (rfn : ReadFn) (wfn : WriteFn) (i cache : Nat)
    (u : d3net_unit_t) (now : Nat) (hp : u.present = false) :
    d3net_unit_prepare_write rfn wfn i cache u now = (EspErr.invalidArg, u, []) := by
  unfold d3net_unit_prepare_write
  rw [if_pos hp]

theorem prepare_write_no_reload (rfn : ReadFn) (wfn : WriteFn) (i cache : Nat)
    (u : d3net_unit_t) (now : Nat) (hp : u.present = true)
    (hmr : ((u.holding.last_read_ms == 0) ||
      (!u.holding.dirty && !d3net_holding_read_within u.holding now cache &&
       !d3net_holding_write_within u.holding now cache)) = false) :
    d3net_unit_prepare_write rfn wfn i cache u now = (EspErr.ok, u, []) := by
  unfold d3net_unit_prepare_write
  rw [if_neg (by simp [hp]), if_neg (by simp [hmr])]

theorem prepare_write_reload_fail (rfn : ReadFn) (wfn : WriteFn) (i cache : Nat)
    (u : d3net_unit_t) (now : Nat) (hp : u.present = true)
    (hmr : ((u.holding.last_read_ms == 0) ||
      (!u.holding.dirty && !d3net_holding_read_within u.holding now cache &&
       !d3net_holding_write_within u.holding now cache)) = true)
    (hrd : rfn RegType.holding (2000 + 3 * i) 3 = none) :
    d3net_unit_prepare_write rfn wfn i cache u now =
      (EspErr.fail, u, [Op.readHolding (2000 + 3 * i) 3]) := by
  unfold d3net_unit_prepare_write
  rw [if_neg (by simp [hp]), if_pos (by simp [hmr]),
    holding_read_none rfn i u now hrd]
  simp

theorem prepare_write_reload_clean (rfn : ReadFn) (wfn : WriteFn) (i cache : Nat)
    (u : d3net_unit_t) (now : Nat) (ws : List Nat) (hp : u.present = true)
    (hmr : ((u.holding.last_read_ms == 0) ||
      (!u.holding.dirty && !d3net_holding_read_within u.holding now cache &&
       !d3net_holding_write_within u.holding now cache)) = true)
    (hrd : rfn RegType.holding (2000 + 3 * i) 3 = some ws)
    (hcl : (d3net_holding_sync_from_status
      (d3net_holding_mark_read { u.holding with words := ws } now)
      u.status).dirty = false) :
    d3net_unit_prepare_write rfn wfn i cache u now =
      (EspErr.ok,
       { u with holding := (d3net_holding_sync_from_status
           (d3net_holding_mark_read { u.holding with words := ws } now) u.status) },
       [Op.readHolding (2000 + 3 * i) 3]) := by
  unfold d3net_unit_prepare_write
  rw [if_neg (by simp [hp]), if_pos (by simp [hmr]),
    holding_read_some rfn i u now ws hrd]
  simp [hcl]

theorem prepare_write_reload_dirty (rfn : ReadFn) (wfn : WriteFn) (i cache : Nat)
    (u : d3net_unit_t) (now : Nat) (ws : List Nat) (hp : u.present = true)
    (hmr : ((u.holding.last_read_ms == 0) ||
      (!u.holding.dirty && !d3net_holding_read_within u.holding now cache &&
       !d3net_holding_write_within u.holding now cache)) = true)
    (hrd : rfn RegType.holding (2000 + 3 * i) 3 = some ws)
    (hdt : (d3net_holding_sync_from_status
      (d3net_holding_mark_read { u.holding with words := ws } now)
      u.status).dirty = true) :
    d3net_unit_prepare_write rfn wfn i cache u now =
      ((d3net_holding_write_if_dirty wfn i
          { u with holding := (d3net_holding_sync_from_status
              (d3net_holding_mark_read { u.holding with words := ws } now)
              u.status) } now).1,
       (d3net_holding_write_if_dirty wfn i
          { u with holding := (d3net_holding_sync_from_status
              (d3net_holding_mark_read { u.holding with words := ws } now)
              u.status) } now).2.1,
       Op.readHolding (2000 + 3 * i) 3 ::
         (d3net_holding_write_if_dirty wfn i
            { u with holding := (d3net_holding_sync_from_status
                (d3net_holding_mark_read { u.holding with words := ws } now)
                u.status) } now).2.2) := by
  unfold d3net_unit_prepare_write
  rw [if_neg (by simp [hp]), if_pos (by simp [hmr]),
    holding_read_some rfn i u now ws hrd]
  simp [hdt]

theorem prepare_mustreload_false (u : d3net_unit_t) (now cache : Nat)
    (hlr : u.holding.last_read_ms = now) (hn : 1 ≤ now) (hc : 1 ≤ cache) :
    ((u.holding.last_read_ms == 0) ||
      (!u.holding.dirty && !d3net_holding_read_within u.holding now cache &&
       !d3net_holding_write_within u.holding now cache)) = false := by
  have h1 : (u.holding.last_read_ms == 0) = false := by
    simp [hlr]
    omega
  have h2 : d3net_holding_read_within u.holding now cache = true := by
    unfold d3net_holding_read_within
    rw [hlr, if_neg (by omega)]
    simp
    omega
  rw [h1, h2]
  simp

theorem count_holding_reads_append (a b : List Op) :
    count_holding_reads (a ++ b) =
      count_holding_reads a + count_holding_reads b := by
  unfold count_holding_reads
  exact List.countP_append _ _ _

theorem count_holding_reads_cons_read (a c : Nat) (l : List Op) :
    count_holding_reads (Op.readHolding a c :: l) = count_holding_reads l + 1 := by
  unfold count_holding_reads
  rw [List.countP_cons]
  simp

theorem count_holding_reads_nil : count_holding_reads [] = 0 := rfl

/-- C6 counterexample: with a failing holding-read transport, two
successive prepare_write calls on a never-read present unit each reload,
performing two holding reads in total (the failed first call leaves the
unit unchanged, so nothing stops the second reload). -/
theorem prepare_write_two_reads_cex :
    count_holding_reads
      ((d3net_unit_prepare_write (fun _ _ _ => none) (fun _ _ => true) 0 35
          c6_unit 1000).2.2 ++
        (d3net_unit_prepare_write (fun _ _ _ => none) (fun _ _ => true) 0 35
          (d3net_unit_prepare_write (fun _ _ _ => none) (fun _ _ => true) 0 35
            c6_unit 1000).2.1 1000).2.2) = 2 := by
  decide

/-- C6 (amended): provided the holding read succeeds, `cache_write_s` is at
least one second and the clock is non-zero (0 is the never-read sentinel),
two successive prepare_write calls with no intervening change to the unit
or the clock perform at most one holding-register read in total — the
reload happens only when `last_read_ms` is 0, or when the shadow is clean
and neither read nor written within `cache_write_s`. -/
theorem prepare_write_single_read (rfn : ReadFn) (wfn : WriteFn) (i cache : Nat)
    (u : d3net_unit_t) (now : Nat) (hc : 1 ≤ cache) (hn : 1 ≤ now)
    (hr : (rfn RegType.holding (2000 + 3 * i) 3).isSome) :
    count_holding_reads
      ((d3net_unit_prepare_write rfn wfn i cache u now).2.2 ++
        (d3net_unit_prepare_write rfn wfn i cache
          (d3net_unit_prepare_write rfn wfn i cache u now).2.1 now).2.2) ≤ 1 := by
  by_cases hp : u.present = true
  · by_cases hmr : ((u.holding.last_read_ms == 0) ||
        (!u.holding.dirty && !d3net_holding_read_within u.holding now cache &&
         !d3net_holding_write_within u.holding now cache)) = true
    · obtain ⟨ws, hws⟩ := Option.isSome_iff_exists.mp hr
      by_cases hdt : (d3net_holding_sync_from_status
          (d3net_holding_mark_read { u.holding with words := ws } now)
          u.status).dirty = true
      · rw [prepare_write_reload_dirty rfn wfn i cache u now ws hp hmr hws hdt]
        dsimp only
        have hpres2 : (d3net_holding_write_if_dirty wfn i
            { u with holding := (d3net_holding_sync_from_status
               (d3net_holding_mark_read { u.holding with words := ws } now)
               u.status) } now).2.1.present = true := by
          rw [write_if_dirty_present]
          exact hp
        have hlr2 : (d3net_holding_write_if_dirty wfn i
            { u with holding := (d3net_holding_sync_from_status
               (d3net_holding_mark_read { u.holding with words := ws } now)
               u.status) } now).2.1.holding.last_read_ms = now := by
          rw [write_if_dirty_last_read]
          show (d3net_holding_sync_from_status
            (d3net_holding_mark_read { u.holding with words := ws } now)
            u.status).last_read_ms = now
          rw [sync_last_read_ms, mark_read_last_read]
        rw [prepare_write_no_reload rfn wfn i cache _ now hpres2
          (prepare_mustreload_false _ now cache hlr2 hn hc)]
        rw [count_holding_reads_append, count_holding_reads_cons_read,
          write_if_dirty_count0, count_holding_reads_nil]
      · rw [prepare_write_reload_clean rfn wfn i cache u now ws hp hmr hws
          (by simpa using hdt)]
        dsimp only
        have hpres2 : ({ u with holding := (d3net_holding_sync_from_status
            (d3net_holding_mark_read { u.holding with words := ws } now)
            u.status) } : d3net_unit_t).present = true := hp
        have hlr2 : ({ u with holding := (d3net_holding_sync_from_status
            (d3net_holding_mark_read { u.holding with words := ws } now)
            u.status) } : d3net_unit_t).holding.last_read_ms = now := by
          show (d3net_holding_sync_from_status
            (d3net_holding_mark_read { u.holding with words := ws } now)
            u.status).last_read_ms = now
          rw [sync_last_read_ms, mark_read_last_read]
        rw [prepare_write_no_reload rfn wfn i cache _ now hpres2
          (prepare_mustreload_false _ now cache hlr2 hn hc)]
        rw [count_holding_reads_append, count_holding_reads_cons_read,
          count_holding_reads_nil]
    · rw [prepare_write_no_reload rfn wfn i cache u now hp (by simpa using hmr)]
      dsimp only
      rw [prepare_write_no_reload rfn wfn i cache u now hp (by simpa using hmr)]
      simp [count_holding_reads]
  · rw [prepare_write_not_present rfn wfn i cache u now (by simpa using hp)]
    dsimp only
    rw [prepare_write_not_present rfn wfn i cache u now (by simpa using hp)]
    simp [count_holding_reads]

/-- C6 witness: with an always-succeeding read transport, a never-read
present unit reloads once across two prepare_write calls. -/
theorem prepare_write_single_read_witness :
    count_holding_reads
      ((d3net_unit_prepare_write (fun _ _ _ => some [0, 0, 0]) (fun _ _ => true)
          0 35 c6_unit 1000).2.2 ++
        (d3net_unit_prepare_write (fun _ _ _ => some [0, 0, 0]) (fun _ _ => true)
          0 35
          (d3net_unit_prepare_write (fun _ _ _ => some [0, 0, 0])
            (fun _ _ => true) 0 35 c6_unit 1000).2.1 1000).2.2) ≤ 1 :=
  prepare_write_single_read (fun _ _ _ => some [0, 0, 0]) (fun _ _ => true) 0 35
    c6_unit 1000 (by omega) (by omega) (by decide)

theorem holding_filter_reset_clear_eq (h : d3net_unit_holding_t) :
    d3net_holding_filter_reset_set h false =
      { words := (d3net_uint_set h.words 20 4 0 h.dirty).1
        dirty := (d3net_uint_set h.words 20 4 0 h.dirty).2
        last_read_ms := h.last_read_ms
        last_write_ms := h.last_write_ms } := by
  simp [d3net_holding_filter_reset_set]

theorem holding_filter_reset_assert_eq (h : d3net_unit_holding_t) :
    d3net_holding_filter_reset_set h true =
      { words := (d3net_uint_set h.words 20 4 15 h.dirty).1
        dirty := (d3net_uint_set h.words 20 4 15 h.dirty).2
        last_read_ms := h.last_read_ms
        last_write_ms := h.last_write_ms } := by
  simp [d3net_holding_filter_reset_set]

set_option maxRecDepth 8192 in
theorem commit_write_pulse (wfn : WriteFn) (i : Nat) (u : d3net_unit_t) (now : Nat)
    (hp : u.present = true)
    (hdirty : (d3net_holding_sync_from_status u.holding u.status).dirty = true)
    (hfil : d3net_uint_get (d3net_holding_sync_from_status u.holding u.status).words
      20 4 = 15)
    (hlen : (d3net_holding_sync_from_status u.holding u.status).words.length = 3)
    (hw : ∀ a w, wfn a w = true) :
    d3net_unit_commit_write wfn i u now =
      (EspErr.ok,
       { u with holding := (d3net_holding_mark_written
           (d3net_holding_filter_reset_set
             (d3net_holding_mark_written
               (d3net_holding_sync_from_status u.holding u.status) now) false) now) },
       [Op.write (2000 + 3 * i) (d3net_holding_sync_from_status u.holding u.status).words,
        Op.write (2000 + 3 * i)
          (d3net_holding_filter_reset_set
            (d3net_holding_mark_written
              (d3net_holding_sync_from_status u.holding u.status) now) false).words]) := by
  have hfil2 : d3net_holding_filter_reset_get
      (d3net_holding_mark_written
        (d3net_holding_sync_from_status u.holding u.status) now) = true := by
    unfold d3net_holding_filter_reset_get
    rw [mark_written_words, hfil]
    rfl
  have hd2 : (d3net_holding_filter_reset_set
      (d3net_holding_mark_written
        (d3net_holding_sync_from_status u.holding u.status) now) false).dirty = true := by
    rw [holding_filter_reset_clear_eq]
    dsimp only
    rw [mark_written_words, mark_written_dirty,
      d3net_uint_set_dirty _ _ _ _ _ (by rw [hlen]; omega) (by norm_num), hfil]
    rfl
  unfold d3net_unit_commit_write
  rw [if_neg (by simp [hp])]
  dsimp only
  rw [write_if_dirty_dirty_ok wfn i
    { u with holding := d3net_holding_sync_from_status u.holding u.status } now
    hdirty (hw _ _)]
  dsimp only
  rw [if_neg (by simp), if_pos hfil2]
  rw [write_if_dirty_dirty_ok wfn i
    { u with holding := (d3net_holding_filter_reset_set
        (d3net_holding_mark_written
          (d3net_holding_sync_from_status u.holding u.status) now) false) } now
    hd2 (hw _ _)]
  simp

set_option maxRecDepth 8192 in
/-- C3 counterexample: on a present unit whose fresh, clean shadow already
carries filter-reset asserted (as read back from the adapter), filter_reset
with an always-succeeding write transport issues only ONE holding write:
asserting 15 over 15 changes nothing, so the commit's first write is
skipped and only the pulse-down write with bits 20..23 = 0 goes out. -/
theorem filter_reset_single_write_cex :
    (d3net_unit_filter_reset (fun _ _ _ => none) (fun _ _ => true) 0 35
      c3cex_unit 1000).1 = EspErr.ok ∧
    (d3net_unit_filter_reset (fun _ _ _ => none) (fun _ _ => true) 0 35
      c3cex_unit 1000).2.2 = [Op.write 2000 [96, 0, 0]] := by
  decide

set_option maxRecDepth 8192 in
/-- C3 (amended): for a present unit whose shadow is fresh (read within
`cache_write_s`), clean, and has the filter-reset field clear, a
filter_reset operation whose transport writes all succeed issues exactly
two holding write-multiple operations to `2000 + 3 i`: the first carries
15 in bits 20..23, the second carries 0 there, and after the commit the
shadow no longer has filter-reset asserted. -/
theorem filter_reset_two_writes (rfn : ReadFn) (wfn : WriteFn) (i cache : Nat)
    (u : d3net_unit_t) (now : Nat)
    (hwlen : u.holding.words.length = 3)
    (hp : u.present = true)
    (hd : u.holding.dirty = false)
    (hlr : u.holding.last_read_ms ≠ 0)
    (hrw : d3net_holding_read_within u.holding now cache = true)
    (hfr : d3net_uint_get u.holding.words 20 4 = 0)
    (hw : ∀ a w, wfn a w = true) :
    (d3net_unit_filter_reset rfn wfn i cache u now).1 = EspErr.ok ∧
    (∃ w1 w2,
      (d3net_unit_filter_reset rfn wfn i cache u now).2.2 =
        [Op.write (2000 + 3 * i) w1, Op.write (2000 + 3 * i) w2] ∧
      d3net_uint_get w1 20 4 = 15 ∧ d3net_uint_get w2 20 4 = 0) ∧
    d3net_holding_filter_reset_get
      (d3net_unit_filter_reset rfn wfn i cache u now).2.1.holding = false := by
  have hmrf : ((u.holding.last_read_ms == 0) ||
      (!u.holding.dirty && !d3net_holding_read_within u.holding now cache &&
       !d3net_holding_write_within u.holding now cache)) = false := by
    have h1 : (u.holding.last_read_ms == 0) = false := by
      simpa using hlr
    rw [h1, hrw, hd]
    simp
  have hprep := prepare_write_no_reload rfn wfn i cache u now hp hmrf
  have lset : (d3net_holding_filter_reset_set u.holding true).words.length = 3 := by
    rw [holding_filter_reset_assert_eq]
    dsimp only
    rw [d3net_uint_set_length, hwlen]
  have s20 : d3net_uint_get (d3net_holding_filter_reset_set u.holding true).words
      20 4 = 15 := by
    rw [holding_filter_reset_assert_eq]
    dsimp only
    exact d3net_uint_get_set _ _ _ _ _ (by rw [hwlen]; omega) (by norm_num)
  have dset : (d3net_holding_filter_reset_set u.holding true).dirty = true := by
    rw [holding_filter_reset_assert_eq]
    dsimp only
    rw [d3net_uint_set_dirty _ _ _ _ _ (by rw [hwlen]; omega) (by norm_num), hfr, hd]
    rfl
  obtain ⟨g0, g8, g12, g16, g4, g32, g47, g20, gdirty, gl, glr, glw⟩ :=
    sync_fields (d3net_holding_filter_reset_set u.holding true) u.status lset
  have hdirty2 : (d3net_holding_sync_from_status
      (d3net_holding_filter_reset_set u.holding true) u.status).dirty = true := by
    rw [gdirty, dset]
    rfl
  have hfil2 : d3net_uint_get (d3net_holding_sync_from_status
      (d3net_holding_filter_reset_set u.holding true) u.status).words 20 4 = 15 := by
    rw [g20, s20]
  have hW2 : d3net_uint_get (d3net_holding_filter_reset_set
      (d3net_holding_mark_written
        (d3net_holding_sync_from_status
          (d3net_holding_filter_reset_set u.holding true) u.status) now)
      false).words 20 4 = 0 := by
    rw [holding_filter_reset_clear_eq]
    dsimp only
    exact d3net_uint_get_set _ _ _ _ _
      (by rw [mark_written_words, gl]; omega) (by norm_num)
  have hfin : d3net_holding_filter_reset_get
      (d3net_holding_mark_written
        (d3net_holding_filter_reset_set
          (d3net_holding_mark_written
            (d3net_holding_sync_from_status
              (d3net_holding_filter_reset_set u.holding true) u.status) now)
          false) now) = false := by
    unfold d3net_holding_filter_reset_get
    rw [mark_written_words, hW2]
    rfl
  unfold d3net_unit_filter_reset
  rw [hprep]
  dsimp only
  rw [if_neg (by simp)]
  rw [commit_write_pulse wfn i
    { u with holding := d3net_holding_filter_reset_set u.holding true } now hp
    hdirty2 hfil2 gl hw]
  dsimp only
  refine ⟨rfl,
    ⟨(d3net_holding_sync_from_status
        (d3net_holding_filter_reset_set u.holding true) u.status).words,
     (d3net_holding_filter_reset_set
        (d3net_holding_mark_written
          (d3net_holding_sync_from_status
            (d3net_holding_filter_reset_set u.holding true) u.status) now)
        false).words,
     by simp, hfil2, hW2⟩,
    hfin⟩

/-- C3 witness: on a concrete fresh in-sync unit, filter_reset succeeds and
leaves the shadow with filter-reset deasserted. -/
theorem filter_reset_two_writes_witness :
    (d3net_unit_filter_reset (fun _ _ _ => none) (fun _ _ => true) 0 35
      c3_unit 1).1 = EspErr.ok ∧
    d3net_holding_filter_reset_get
      (d3net_unit_filter_reset (fun _ _ _ => none) (fun _ _ => true) 0 35
        c3_unit 1).2.1.holding = false := by
  have h := filter_reset_two_writes (fun _ _ _ => none) (fun _ _ => true) 0 35
    c3_unit 1 (by rfl) (by rfl) (by rfl) (by decide) (by decide) (by decide)
    (fun a w => rfl)
  exact ⟨h.1, h.2.2⟩

end D3net
